import Mathlib

/-
Verification of the EduStream quiz-scoring and sharing subsystem.

This file gives a shallow embedding, in Lean 4, of the request handlers of
`app/api/v1/endpoints/share.py` and `app/api/v1/endpoints/analytics_swagger.py`
together with the data model of `app/models/models.py`, and proves properties
of that embedding.

Modelling conventions:
  - Python strings are Lean `String`; `str.strip()`, `str.lower()` and slicing
    `[:n]` are embedded as the character-list functions `pyStrip`, `pyLower`
    and `pyTake` below (ASCII semantics, which is what the code relies on).
  - Python `None` is `Option.none`; a missing dictionary key is `none`.
  - Python truthiness of strings ("" is falsy) is embedded explicitly at each
    use site (`pyOrStr` for `a or b` on optional strings).
  - Timestamps (`datetime`) are integers (minutes since an arbitrary epoch);
    `.date()` is `dateOfTs` (floor division by minutesPerDay).  Calendar
    formatting (`strftime`) is presentation and is elided: a performance point
    carries the day number it covers instead of a "dd.mm" label.
  - The database session is a record of lists of rows; `query(...).filter(...)
    .first()` is `List.find?` and `db.add` is list append.  Handlers return
    the resulting row store next to the `Except`-style HTTP outcome; on an
    error outcome the row store is returned unchanged (the real handlers
    raise before `db.commit()`).
  - `secrets.choice(alphabet)` is an oracle `Nat → Fin 62` indexing the same
    62-character alphabet, so one `choice` stream determines every candidate.
  - `passlib` hashing is abstracted by an oracle `verify : String → String →
    Bool` (supplied password, stored hash); handlers never inspect hashes
    otherwise.
-/

namespace EduStream

/-! ## Python string primitives -/

/-- ASCII lower-casing of one character, as `str.lower()` acts on the ASCII
range the code relies on (answers, names, codes). -/
def pyLowerChar (c : Char) : Char :=
  if 'A' ≤ c ∧ c ≤ 'Z' then Char.ofNat (c.toNat + 32) else c

/-- Embedding of Python `str.lower()`. -/
def pyLower (s : String) : String :=
  ⟨s.data.map pyLowerChar⟩

/-- Whitespace recognised by `str.strip()` (ASCII subset). -/
def pySpace (c : Char) : Bool :=
  c = ' ' || c = '\t' || c = '\n' || c = '\r'

/-- Embedding of Python `str.strip()`. -/
def pyStrip (s : String) : String :=
  ⟨((s.data.dropWhile pySpace).reverse.dropWhile pySpace).reverse⟩

/-- Embedding of Python slicing `s[:n]` (by code points). -/
def pyTake (n : Nat) (s : String) : String :=
  ⟨s.data.take n⟩

/-- Embedding of `a or b` where `a` is an optional string (`None` and `""` are
falsy, anything else is returned unchanged). -/
def pyOrStr (a : Option String) (b : String) : String :=
  match a with
  | some s => if s = "" then b else s
  | none => b

/-- Embedding of `str(x.get(k1) or x.get(k2) or "")` for two optional keys. -/
def pyOr2 (a b : Option String) : String :=
  pyOrStr a (pyOrStr b "")

/-- Does the pattern occur at the head of the list? -/
def headMatches : List Char → List Char → Bool
  | [], _ => true
  | _ :: _, [] => false
  | p :: ps, c :: cs => p = c && headMatches ps cs

/-- Does the pattern occur anywhere in the list? -/
def hasSubList (pat : List Char) : List Char → Bool
  | [] => pat.isEmpty
  | c :: cs => headMatches pat (c :: cs) || hasSubList pat cs

/-- Case-insensitive substring test, embedding SQL `ILIKE '%pat%'`. -/
def containsCI (s pat : String) : Bool :=
  hasSubList (pyLower pat).data (pyLower s).data

/-! ## Python dictionaries as association lists -/

/-- A Python dictionary with string keys (insertion-ordered, unique keys). -/
abbrev Dict (α : Type) := List (String × α)

/-- Embedding of `d.get(k)`. -/
def dget {α : Type} (d : Dict α) (k : String) : Option α :=
  (d.find? (fun p => p.1 = k)).map (·.2)

/-- Embedding of `d[k] = v`: updates the entry in place if present, appends
otherwise (as Python dictionaries do). -/
def dset {α : Type} (d : Dict α) (k : String) (v : α) : Dict α :=
  if d.any (fun p => p.1 = k) then
    d.map (fun p => if p.1 = k then (k, v) else p)
  else
    d ++ [(k, v)]

/-- Embedding of `d.pop(k, None)` restricted to its effect on the dictionary. -/
def dpop {α : Type} (d : Dict α) (k : String) : Dict α :=
  d.filter (fun p => !(p.1 = k))

theorem find_update_other {α : Type} (d : Dict α) (k k' : String) (v : α)
    (h : k' ≠ k) :
    List.find? (fun p => p.1 = k')
        (d.map (fun p => if p.1 = k then (k, v) else p)) =
      List.find? (fun p => p.1 = k') d := by
  induction d with
  | nil => rfl
  | cons p rest ih =>
    by_cases hpk : p.1 = k
    · have hne : ¬ p.1 = k' := fun hk => h (hk ▸ hpk)
      simp only [List.map_cons, if_pos hpk]
      rw [List.find?_cons_of_neg _ (by simpa using h.symm),
        List.find?_cons_of_neg _ (by simpa using hne)]
      exact ih
    · simp only [List.map_cons, if_neg hpk]
      by_cases hp : p.1 = k'
      · rw [List.find?_cons_of_pos _ (by simpa using hp),
          List.find?_cons_of_pos _ (by simpa using hp)]
      · rw [List.find?_cons_of_neg _ (by simpa using hp),
          List.find?_cons_of_neg _ (by simpa using hp)]
        exact ih

theorem find_append_other {α : Type} (d : Dict α) (k k' : String) (v : α)
    (h : k' ≠ k) :
    List.find? (fun p => p.1 = k') (d ++ [(k, v)]) =
      List.find? (fun p => p.1 = k') d := by
  induction d with
  | nil =>
    simp only [List.nil_append]
    rw [List.find?_cons_of_neg _ (by simpa using h.symm)]
  | cons p rest ih =>
    by_cases hp : p.1 = k'
    · simp only [List.cons_append]
      rw [List.find?_cons_of_pos _ (by simpa using hp),
        List.find?_cons_of_pos _ (by simpa using hp)]
    · simp only [List.cons_append]
      rw [List.find?_cons_of_neg _ (by simpa using hp),
        List.find?_cons_of_neg _ (by simpa using hp)]
      exact ih

theorem find_update_self {α : Type} (d : Dict α) (k : String) (v : α)
    (h : d.any (fun p => p.1 = k)) :
    List.find? (fun p => p.1 = k)
        (d.map (fun p => if p.1 = k then (k, v) else p)) = some (k, v) := by
  induction d with
  | nil => simp at h
  | cons p rest ih =>
    by_cases hpk : p.1 = k
    · simp only [List.map_cons, if_pos hpk]
      rw [List.find?_cons_of_pos _ (by simp)]
    · simp only [List.any_cons, Bool.or_eq_true] at h
      rcases h with h | h
      · exact absurd (by simpa using h) hpk
      · simp only [List.map_cons, if_neg hpk]
        rw [List.find?_cons_of_neg _ (by simpa using hpk)]
        exact ih h

theorem find_append_self {α : Type} (d : Dict α) (k : String) (v : α)
    (h : ¬ d.any (fun p => p.1 = k)) :
    List.find? (fun p => p.1 = k) (d ++ [(k, v)]) = some (k, v) := by
  induction d with
  | nil =>
    simp only [List.nil_append]
    rw [List.find?_cons_of_pos _ (by simp)]
  | cons p rest ih =>
    simp only [List.any_cons, Bool.or_eq_true] at h
    push_neg at h
    obtain ⟨h1, h2⟩ := h
    simp only [List.cons_append]
    rw [List.find?_cons_of_neg _ (by simpa using h1)]
    exact ih (by simpa using h2)

theorem dget_dset_self {α : Type} (d : Dict α) (k : String) (v : α) :
    dget (dset d k v) k = some v := by
  unfold dget dset
  by_cases h : d.any (fun p => p.1 = k)
  · rw [if_pos h, find_update_self d k v h]
    rfl
  · rw [if_neg h, find_append_self d k v h]
    rfl

theorem dget_dset_ne {α : Type} (d : Dict α) (k k' : String) (v : α)
    (h : k' ≠ k) : dget (dset d k v) k' = dget d k' := by
  unfold dget dset
  by_cases hmem : d.any (fun p => p.1 = k)
  · rw [if_pos hmem, find_update_other d k k' v h]
  · rw [if_neg hmem, find_append_other d k k' v h]

theorem dget_dpop_ne {α : Type} (d : Dict α) (k k' : String)
    (h : k' ≠ k) : dget (dpop d k) k' = dget d k' := by
  unfold dget dpop
  induction d with
  | nil => rfl
  | cons p rest ih =>
    by_cases hpk : p.1 = k
    · have hne : ¬ p.1 = k' := fun hk => h (hk ▸ hpk)
      simp only [List.filter_cons, hpk, decide_True, Bool.not_true, if_neg,
        Bool.false_eq_true, not_false_iff]
      rw [List.find?_cons_of_neg _ (by simpa using hne)]
      exact ih
    · simp only [List.filter_cons, hpk, decide_False, Bool.not_false, if_pos]
      by_cases hp : p.1 = k'
      · rw [List.find?_cons_of_pos _ (by simpa using hp),
          List.find?_cons_of_pos _ (by simpa using hp)]
      · rw [List.find?_cons_of_neg _ (by simpa using hp),
          List.find?_cons_of_neg _ (by simpa using hp)]
        exact ih

/-! ## Rounding

Python 3 `round` rounds half to even.  The handlers apply it to exact
quotients of integers, which we embed as exact rational rounding. -/

/-- Python `round(num / den)` for naturals (`den > 0` at every call site;
`den = 0` is mapped to `0`, a value the handlers never produce). -/
def pyRound (num den : Nat) : Nat :=
  if den = 0 then 0
  else
    let q := num / den
    let r := num % den
    if 2 * r < den then q
    else if den < 2 * r then q + 1
    else if q % 2 = 0 then q else q + 1

/-- Python `round(num / den)` for integers (`den > 0` at every call site). -/
def pyRoundInt (num : Int) (den : Int) : Int :=
  if den ≤ 0 then 0
  else
    let q := Int.fdiv num den
    let r := num - den * q
    if 2 * r < den then q
    else if den < 2 * r then q + 1
    else if q % 2 = 0 then q else q + 1

theorem pyRound_le (num den bound : Nat) (hden : 0 < den)
    (h : num ≤ bound * den) : pyRound num den ≤ bound := by
  unfold pyRound
  rw [if_neg (Nat.pos_iff_ne_zero.mp hden)]
  have hq : num / den ≤ bound :=
    Nat.div_le_of_le_mul (by rw [Nat.mul_comm]; exact h)
  simp only []
  rcases Nat.lt_or_ge (num / den) bound with hlt | hge
  · split
    · omega
    · split
      · omega
      · split <;> omega
  · have hqe : num / den = bound := Nat.le_antisymm hq hge
    have hmod := Nat.div_add_mod num den
    have hcomm : den * bound = bound * den := Nat.mul_comm den bound
    have hr : num % den = 0 := by
      rw [hqe] at hmod
      omega
    rw [hr, if_pos (by omega : 2 * 0 < den)]
    omega

/-! ## Data model (`app/models/models.py`) -/

/-- Row of the `public_links` table. -/
structure PublicLink where
  id : String
  user_id : String
  resource_id : String
  resource_type : String
  short_code : String
  view_only : Bool
  allow_copy : Bool
  password : Option String
  expires_at : Option Int
  created_at : Int
  deriving Repr, DecidableEq

/-- One entry of a quiz's `questions` JSON list, a dictionary whose keys the
handlers read with `.get`; a missing key is `none`. -/
structure Question where
  qid : Option String
  qtype : Option String
  text : Option String
  question : Option String
  options : Option (List String)
  correctAnswer : Option String
  correct_answer : Option String
  topic : Option String
  deriving Repr, DecidableEq

/-- Row of the `quizzes` table.  A `none` entry of `questions` models a
non-dictionary JSON list element (the handlers skip those). -/
structure Quiz where
  id : String
  material_id : String
  title : Option String
  questions : List (Option Question)
  created_at : Int
  deriving Repr, DecidableEq

/-- Row of the `materials` table (the fields the share and analytics
handlers read). -/
structure Material where
  id : String
  user_id : String
  title : String
  content : Option String
  summary : Option String
  course_id : Option String
  deriving Repr, DecidableEq

/-- One entry of an OCR result's `questions` JSON list (a "region record"). -/
structure Region where
  rid : String
  label : String
  original : String
  ocrText : String
  confidence : String
  matchPct : Option Int
  deriving Repr, DecidableEq

/-- Row of the `ocr_results` table.  `created_at` and `updated_at` are
non-nullable with defaults, so they are plain timestamps here. -/
structure OCRResult where
  id : String
  user_id : String
  student_name : String
  student_accuracy : Option Int
  image_url : String
  questions : List Region
  status : String
  manual_score : Option Int
  course_id : Option String
  created_at : Int
  updated_at : Int
  deriving Repr, DecidableEq

/-- Row of the `student_results` table. -/
structure StudentResult where
  id : String
  user_id : String
  student_identifier : String
  quiz_id : String
  score : Nat
  weak_topics : List String
  submission_date : Int
  deriving Repr, DecidableEq

/-- The row stores a handler session touches. -/
structure DB where
  links : List PublicLink
  quizzes : List Quiz
  materials : List Material
  ocrResults : List OCRResult
  studentResults : List StudentResult
  deriving Repr, DecidableEq

/-- The error taxonomy of the handlers (`HTTPException` status plus detail).
`serviceUnavailable` belongs to the taxonomy (spec section 7) but is raised
by none of the embedded handlers. -/
inductive HErr where
  | badRequest (detail : String)
  | unauthorized (detail : String)
  | notFound (detail : String)
  | conflict (detail : String)
  | gone (detail : String)
  | unprocessable (detail : String)
  | internalServerError (detail : String)
  | serviceUnavailable (detail : String)
  deriving Repr, DecidableEq

/-- HTTP status code of each error. -/
def HErr.statusCode : HErr → Nat
  | .badRequest _ => 400
  | .unauthorized _ => 401
  | .notFound _ => 404
  | .conflict _ => 409
  | .gone _ => 410
  | .unprocessable _ => 422
  | .internalServerError _ => 500
  | .serviceUnavailable _ => 503

/-! ## Short codes (`share.py`, `generate_short_code` and
`validate_short_code_or_400`) -/

/-- The alphabet `string.ascii_letters + string.digits`. -/
def codeAlphabet : List Char :=
  "abcdefghijklmnopqrstuvwxyzABCDEFGHIJKLMNOPQRSTUVWXYZ0123456789".data

theorem codeAlphabet_length : codeAlphabet.length = 62 := by decide

/-- Embedding of `generate_short_code`: eight draws from the 62-character
alphabet.  `choice` is the `secrets.choice` oracle and `base` the index of
the first draw consumed by this call. -/
def generate_short_code (choice : Nat → Fin 62) (base : Nat) : String :=
  ⟨(List.range 8).map (fun i => codeAlphabet.getD (choice (base + i)).val 'a')⟩

/-- Characters admitted by the lookup regex `[A-Za-z0-9_-]`. -/
def isShortCodeChar (c : Char) : Bool :=
  ('A' ≤ c && c ≤ 'Z') || ('a' ≤ c && c ≤ 'z') || ('0' ≤ c && c ≤ '9') ||
    c = '_' || c = '-'

/-- Embedding of `re.fullmatch(r"[A-Za-z0-9_-]{6,32}", code)`. -/
def matchesShortCodeFormat (s : String) : Bool :=
  6 ≤ s.length && s.length ≤ 32 && s.data.all isShortCodeChar

/-- Embedding of `validate_short_code_or_400`. -/
def validate_short_code_or_400 (short_code : String) : Except HErr String :=
  let code := pyStrip short_code
  if matchesShortCodeFormat code then .ok code
  else .error (.badRequest "Invalid short code format")

/-! ## UUID parsing

`uuid.UUID(str(x))` raises `ValueError` on malformed input; stored resource
ids are produced by `uuid.uuid4()` and serialise to the canonical lowercase
8-4-4-4-12 form, which is the fragment of the parser the handlers exercise. -/

def isHexDigit (c : Char) : Bool :=
  ('0' ≤ c && c ≤ '9') || ('a' ≤ c && c ≤ 'f') || ('A' ≤ c && c ≤ 'F')

/-- Canonical textual UUID: 36 characters, dashes at positions 8, 13, 18 and
23, hexadecimal digits elsewhere. -/
def isCanonicalUuid (s : String) : Bool :=
  s.data.length = 36 && s.data.enum.all (fun p =>
    if p.1 = 8 || p.1 = 13 || p.1 = 18 || p.1 = 23 then p.2 = '-'
    else isHexDigit p.2)

/-- Embedding of `uuid.UUID(str(s))`: `none` models the `ValueError` branch;
a successful parse is normalised to lowercase as `str(UUID(...))` is. -/
def parseUuid (s : String) : Option String :=
  if isCanonicalUuid s then some (pyLower s) else none

/-! ## Link resolution (`GET /share/{short_code}`) -/

def findLink (db : DB) (code : String) : Option PublicLink :=
  db.links.find? (fun l => l.short_code = code)

def findQuiz (db : DB) (qid : String) : Option Quiz :=
  db.quizzes.find? (fun q => q.id = qid)

def findMaterial (db : DB) (mid : String) : Option Material :=
  db.materials.find? (fun m => m.id = mid)

/-- Embedding of `link.expires_at and link.expires_at < datetime.utcnow()`. -/
def linkExpired (link : PublicLink) (now : Int) : Bool :=
  match link.expires_at with
  | some t => t < now
  | none => false

/-- Embedding of the password gate: `if link.password:` (an empty stored hash
is falsy) followed by `if not password or not verify_password(password,
link.password)`. -/
def passwordRejected (link : PublicLink) (password : Option String)
    (verify : String → String → Bool) : Bool :=
  match link.password with
  | some h =>
    if h = "" then false
    else
      match password with
      | none => true
      | some p => if p = "" then true else !(verify p h)
  | none => false

/-- A question as serialised into the public quiz payload: the handler copies
only `id`, `type`, `text` and `options`, so the payload type has no answer
field at all. -/
structure PublicQuestion where
  pid : String
  ptype : String
  ptext : String
  poptions : List String
  deriving Repr, DecidableEq

/-- Embedding of the per-question serialisation in the quiz branch of
`get_shared_resource`.  `fresh` is the `str(uuid.uuid4())` fallback drawn
when the stored `id` is missing or empty. -/
def publicQuestion (fresh : String) (q : Question) : PublicQuestion :=
  { pid := pyOrStr q.qid fresh
    ptype := q.qtype.getD "mcq"
    ptext := pyOrStr q.text (q.question.getD "")
    poptions := q.options.getD [] }

/-- The question list of the public quiz payload: non-dictionary entries are
skipped, the rest serialised. -/
def publicQuestions (freshIds : Nat → String) (qs : List (Option Question)) :
    List PublicQuestion :=
  qs.enum.filterMap (fun p => p.2.map (publicQuestion (freshIds p.1)))

/-- The JSON body returned by `get_shared_resource` (the quiz and material
branches; `acceptUploads`/`acceptTextResponse` are the literal `True`s of the
material branch). -/
inductive SharedPayload where
  | quizPayload (shortCode : String) (viewOnly allowCopy : Bool)
      (title : String) (quizId : String) (questions : List PublicQuestion)
  | materialPayload (shortCode : String) (viewOnly allowCopy : Bool)
      (title : String) (materialId : String) (description : String)
      (acceptUploads acceptTextResponse : Bool)
  deriving Repr, DecidableEq

/-- Embedding of the `get_shared_resource` handler. -/
def get_shared_resource (db : DB) (now : Int)
    (verify : String → String → Bool) (freshIds : Nat → String)
    (short_code : String) (password : Option String) :
    Except HErr SharedPayload :=
  match validate_short_code_or_400 short_code with
  | .error e => .error e
  | .ok code =>
    match findLink db code with
    | none => .error (.notFound "Shared link not found")
    | some link =>
      if linkExpired link now then .error (.gone "Shared link has expired")
      else if passwordRejected link password verify then
        .error (.unauthorized "Password required or invalid")
      else if link.resource_type = "quiz" then
        match parseUuid link.resource_id with
        | none => .error (.badRequest "Invalid shared resource id")
        | some quiz_uuid =>
          match findQuiz db quiz_uuid with
          | none => .error (.notFound "Quiz not found")
          | some quiz =>
            let material := findMaterial db quiz.material_id
            .ok (.quizPayload code link.view_only link.allow_copy
              (pyOrStr quiz.title
                (match material with
                 | some m => m.title
                 | none => "Quiz"))
              quiz.id (publicQuestions freshIds quiz.questions))
      else if link.resource_type = "material" then
        match parseUuid link.resource_id with
        | none => .error (.badRequest "Invalid shared resource id")
        | some material_uuid =>
          match findMaterial db material_uuid with
          | none => .error (.notFound "Material not found")
          | some material =>
            .ok (.materialPayload code link.view_only link.allow_copy
              ("Задание: " ++ material.title) material.id
              (pyTake 1200 (pyStrip (pyOr2 material.summary material.content)))
              true true)
      else .error (.badRequest "Unsupported shared resource")

/-! ## Quiz submission (`POST /share/{short_code}/submit`) -/

/-- The request body of the submit endpoint (`payload: dict`): an `answers`
dictionary mapping question id to the submitted answer, and an optional
`studentName`.  No other key of the body is ever read — in particular no
password. -/
structure SubmitPayload where
  answers : Dict String
  studentName : Option String
  deriving Repr, DecidableEq

/-- One entry of the `details` list of the submit response. -/
structure SubmitDetail where
  questionId : String
  userAnswer : String
  correctAnswer : String
  isCorrect : Bool
  deriving Repr, DecidableEq

/-- The JSON body returned by the submit endpoint. -/
structure SubmitResponse where
  quizId : String
  studentName : String
  score : Nat
  correct : Nat
  total : Nat
  details : List SubmitDetail
  deriving Repr, DecidableEq

/-- Embedding of one iteration of the grading loop: the detail record built
for one question. -/
def gradeQuestion (answers : Dict String) (q : Question) : SubmitDetail :=
  let qid := pyOrStr q.qid ""
  let correct_answer := pyStrip (pyOr2 q.correctAnswer q.correct_answer)
  let user_answer := pyStrip ((dget answers qid).getD "")
  { questionId := qid
    userAnswer := user_answer
    correctAnswer := correct_answer
    isCorrect :=
      if correct_answer = "" then false
      else pyLower user_answer = pyLower correct_answer }

/-- The weak-topic entry appended for one incorrectly answered question. -/
def weakTopicOf (q : Question) : List String :=
  let topic_candidate := pyStrip (pyOr2 q.topic q.text)
  if topic_candidate = "" then [] else [pyTake 80 topic_candidate]

/-- Embedding of the grading loop of `submit_shared_quiz`: the number of
correct answers, the details list, and the weak-topics list, in loop order. -/
def gradeLoop (answers : Dict String) :
    List Question → Nat × List SubmitDetail × List String
  | [] => (0, [], [])
  | q :: rest =>
    let d := gradeQuestion answers q
    let (c, ds, ws) := gradeLoop answers rest
    ((if d.isCorrect then 1 else 0) + c, d :: ds,
      (if d.isCorrect then [] else weakTopicOf q) ++ ws)

/-- Embedding of the `submit_shared_quiz` handler.  `newResultId` is the
primary key the database assigns to the inserted `StudentResult` row.  The
second component of the result is the row store after the handler ran; it is
unchanged on every error outcome. -/
def submit_shared_quiz (db : DB) (now : Int) (newResultId : String)
    (short_code : String) (payload : SubmitPayload) :
    Except HErr SubmitResponse × DB :=
  match validate_short_code_or_400 short_code with
  | .error e => (.error e, db)
  | .ok code =>
    match findLink db code with
    | none => (.error (.notFound "Shared link not found"), db)
    | some link =>
      if linkExpired link now then
        (.error (.gone "Shared link has expired"), db)
      else if !(link.resource_type = "quiz") then
        (.error (.badRequest "Unsupported shared resource"), db)
      else
        match parseUuid link.resource_id with
        | none => (.error (.badRequest "Invalid shared resource id"), db)
        | some quiz_uuid =>
          match findQuiz db quiz_uuid with
          | none => (.error (.notFound "Quiz not found"), db)
          | some quiz =>
            let answers := payload.answers
            let student_name :=
              pyTake 255 (pyStrip (pyOrStr payload.studentName "Student"))
            let questions := quiz.questions.filterMap id
            if questions.isEmpty then
              (.error (.badRequest "Quiz has no questions"), db)
            else
              let (correct, details, weak_topics) := gradeLoop answers questions
              let total := questions.length
              let score := if 0 < total then pyRound (correct * 100) total else 0
              let result : StudentResult :=
                { id := newResultId
                  user_id := link.user_id
                  student_identifier := student_name
                  quiz_id := quiz.id
                  score := score
                  weak_topics := weak_topics
                  submission_date := now }
              (.ok { quizId := quiz.id
                     studentName := student_name
                     score := score
                     correct := correct
                     total := total
                     details := details },
               { db with studentResults := db.studentResults ++ [result] })

/-! ## Assignment upload (`POST /share/{short_code}/upload`) -/

/-- Prefix test on strings (`str.startswith`). -/
def strStartsWith (s pat : String) : Bool :=
  headMatches pat.data s.data

/-- Embedding of `os.path.basename` after backslashes were normalised:
everything after the last slash. -/
def basenameAfterSlash (s : String) : String :=
  ⟨(s.data.reverse.takeWhile (fun c => !(c = '/'))).reverse⟩

/-- Embedding of the `to_public_upload_url` helper of `share.py`. -/
def to_public_upload_url (file_ref : Option String) : String :=
  let raw := pyStrip (file_ref.getD "")
  if raw = "" then ""
  else if strStartsWith raw "http://" || strStartsWith raw "https://" then raw
  else
    let normalized : String := ⟨raw.data.map (fun c => if c = '\\' then '/' else c)⟩
    if strStartsWith normalized "/api/v1/uploads/" then normalized
    else if strStartsWith normalized "/uploads/" then "/api/v1" ++ normalized
    else
      let file_name := basenameAfterSlash normalized
      if file_name = "" then raw
      else "/api/v1/uploads/" ++ file_name

/-- Embedding of the extension component of `os.path.splitext`: from the last
dot on, unless every character before that dot is itself a dot (leading-dot
file names have no extension). -/
def splitextExt (name : String) : String :=
  let cs := name.data
  let revIdx := cs.reverse.indexOf '.'
  if revIdx = cs.length then ""
  else
    let pos := cs.length - 1 - revIdx
    if (cs.take pos).any (fun c => !(c = '.')) then ⟨cs.drop pos⟩ else ""

/-- The upload allow-list of `upload_assignment_file`. -/
def allowedExtensions : List String :=
  [".pdf", ".docx", ".txt", ".png", ".jpg", ".jpeg", ".bmp", ".tif", ".tiff",
    ".webp"]

/-- Outcome of `file_processor.save_file`: the saved path, or the message of
the `ValueError` the handler converts to a 400 (for example the size cap). -/
inductive SaveOutcome where
  | saved (path : String)
  | valueError (msg : String)
  deriving Repr, DecidableEq

/-- Outcome of `file_processor.extract_text`: extracted text, or an
exception (which the handler swallows). -/
inductive ExtractOutcome where
  | extracted (text : String)
  | extractError
  deriving Repr, DecidableEq

/-- The uploaded file as the handler observes it: the client-sent name, the
outcome of `file_processor.save_file` and the outcome of
`file_processor.extract_text` on the saved file. -/
structure FileInput where
  filename : Option String
  saveOutcome : SaveOutcome
  extractOutcome : ExtractOutcome
  deriving Repr, DecidableEq

/-- Result produced by the external auto-grader on success. -/
structure AutoGrade where
  score : Int
  feedback : Option String
  confidence : Option String
  deriving Repr, DecidableEq

/-- Availability and outcome of the external auto-grader for one request. -/
inductive GraderOutcome where
  | available (g : AutoGrade)
  | failed
  deriving Repr, DecidableEq

/-- Modelled from the spec: `AIService.evaluate_assignment_submission` is
called by `upload_assignment_file` but its definition is not among the
provided sources of `app/services/ai_service.py`.  Per the spec (section
4.4), it invokes the external grader with the assignment prompt and the
combined answer text and returns a bounded score plus free-text feedback,
and a failure of the auto-grader must not fail the submission; we therefore
model it as a total function that yields `none` (no automatic score) when
the grader fails and never raises. -/
def evaluate_assignment_submission (grader : GraderOutcome)
    (_assignment_text _student_answer : String) (_max_score : Nat) :
    Option AutoGrade :=
  match grader with
  | .available g => some g
  | .failed => none

/-- A text or file answer chunk, per-field containment standing in for SQL
`ILIKE` over the serialised JSON (the marker never spans two fields). -/
def regionMentions (marker : String) (r : Region) : Bool :=
  containsCI r.rid marker || containsCI r.label marker ||
    containsCI r.original marker || containsCI r.ocrText marker ||
    containsCI r.confidence marker

/-- Embedding of `cast(OCRResult.questions, String)
.ilike(f"%assignment-meta:{short_code}%")`. -/
def rowMentionsLink (code : String) (row : OCRResult) : Bool :=
  row.questions.any (regionMentions ("assignment-meta:" ++ code))

/-- Embedding of `"\n\n".join(chunk for chunk in chunks if chunk)` applied to
the already-filtered list. -/
def joinChunks : List String → String
  | [] => ""
  | [c] => c
  | c :: rest => c ++ "\n\n" ++ joinChunks rest

/-- Embedding of `(studentName or "").strip()[:255] or "Ученик"`. -/
def submittedStudentName (studentName : Option String) : String :=
  let trimmedName := pyTake 255 (pyStrip (studentName.getD ""))
  if trimmedName = "" then "Ученик" else trimmedName

/-- The duplicate query of `upload_assignment_file`: an earlier OCR row of
the same teacher with the same stored student name whose serialised
questions mention this link's marker. -/
def duplicateSubmission (db : DB) (link : PublicLink) (code name : String) :
    Bool :=
  (db.ocrResults.find? (fun row =>
    row.user_id = link.user_id ∧ row.student_name = name ∧
      rowMentionsLink code row)).isSome

/-- The file gate of `upload_assignment_file`: extension allow-list check
followed by `file_processor.save_file`; with no file the saved path is the
literal `"text_submission"`. -/
def fileSaveGate (file : Option FileInput) : Except HErr String :=
  match file with
  | none => .ok "text_submission"
  | some f =>
    let file_name := f.filename.getD ""
    let extension := pyLower (splitextExt file_name)
    if !(allowedExtensions.contains extension) then
      .error (.badRequest
        "Unsupported file type. Allowed: pdf, docx, txt, and images")
    else
      match f.saveOutcome with
      | .valueError msg => .error (.badRequest msg)
      | .saved path => .ok path

/-- The `text-response` region list (empty or a singleton). -/
def textResponseRegions (response_text : String) : List Region :=
  if response_text = "" then []
  else
    [{ rid := "text-response", label := "Ответ ученика", original := "",
       ocrText := response_text, confidence := "High", matchPct := none }]

/-- The `file-response` region list: only built when a file is present and
no response text was typed, and only when extraction succeeded with
non-blank text (an extraction exception is swallowed). -/
def fileResponseRegions (response_text : String) (file : Option FileInput) :
    List Region :=
  match file with
  | some f =>
    if response_text = "" then
      match f.extractOutcome with
      | .extracted t =>
        let extracted_text := pyStrip t
        if extracted_text = "" then []
        else
          [{ rid := "file-response", label := "Ответ из файла", original := "",
             ocrText := pyTake 12000 extracted_text, confidence := "High",
             matchPct := none }]
      | .extractError => []
    else []
  | none => []

/-- The always-appended bookkeeping region carrying the link marker. -/
def assignmentMetaRegion (code materialId : String) : Region :=
  { rid := "assignment-meta:" ++ code, label := "Служебные данные",
    original := "", ocrText := "materialId:" ++ materialId,
    confidence := "High", matchPct := none }

/-- `response_regions` as assembled before auto-grading. -/
def uploadResponseRegions (code materialId response_text : String)
    (file : Option FileInput) : List Region :=
  textResponseRegions response_text ++ fileResponseRegions response_text file
    ++ [assignmentMetaRegion code materialId]

/-- `combined_answer`: the non-blank answer chunks of the text/file response
regions joined with blank lines. -/
def uploadCombinedAnswer (code materialId response_text : String)
    (file : Option FileInput) : String :=
  let answer_chunks :=
    ((uploadResponseRegions code materialId response_text file).filter
      (fun r => r.rid = "text-response" ∨ r.rid = "file-response")).map
      (fun r => pyStrip r.ocrText)
  joinChunks (answer_chunks.filter (fun c => !(c = "")))

/-- The JSON body returned by the upload endpoint. -/
structure UploadResponse where
  submissionId : String
  status : String
  score : Option Int
  studentName : String
  fileUrl : String
  message : String
  deriving Repr, DecidableEq

/-- Embedding of the `upload_assignment_file` handler.  `newSubmissionId` is
the primary key the database assigns to the inserted `OCRResult` row and
`grader` the state of the external auto-grader; the second component of the
result is the row store after the handler ran, unchanged on every error
outcome. -/
def upload_assignment_file (db : DB) (now : Int) (newSubmissionId : String)
    (short_code : String) (studentName : Option String)
    (responseText : Option String) (file : Option FileInput)
    (grader : GraderOutcome) : Except HErr UploadResponse × DB :=
  match validate_short_code_or_400 short_code with
  | .error e => (.error e, db)
  | .ok code =>
    match findLink db code with
    | none => (.error (.notFound "Shared link not found"), db)
    | some link =>
      if linkExpired link now then
        (.error (.gone "Shared link has expired"), db)
      else if !(link.resource_type = "material") then
        (.error (.badRequest "Uploads are available only for assignment links"),
          db)
      else
        match parseUuid link.resource_id with
        | none => (.error (.badRequest "Invalid shared resource id"), db)
        | some material_uuid =>
          match findMaterial db material_uuid with
          | none => (.error (.notFound "Material not found"), db)
          | some material =>
            let student_name := submittedStudentName studentName
            let response_text := pyStrip (responseText.getD "")
            if file.isNone && response_text = "" then
              (.error
                (.badRequest "Attach a file and/or provide text response"), db)
            else if duplicateSubmission db link code student_name then
              (.error (.conflict "Вы уже отправили это задание"), db)
            else
              match fileSaveGate file with
              | .error e => (.error e, db)
              | .ok saved_path =>
                let stored_file_ref :=
                  if file.isSome then to_public_upload_url (some saved_path)
                  else saved_path
                let response_regions :=
                  uploadResponseRegions code material.id response_text file
                let combined_answer :=
                  uploadCombinedAnswer code material.id response_text file
                let auto_grade :=
                  if combined_answer = "" then none
                  else
                    evaluate_assignment_submission grader
                      (pyOr2 material.summary material.content) combined_answer
                      20
                let final_status := "pending"
                let final_score := auto_grade.map (·.score)
                let aiRegions : List Region :=
                  match auto_grade with
                  | none => []
                  | some g =>
                    let clamped := max 0 (min 20 g.score)
                    [{ rid := "assignment-ai-feedback", label := "AI проверка",
                       original := "",
                       ocrText :=
                         pyOrStr g.feedback "Автоматическая проверка выполнена.",
                       confidence :=
                         if g.confidence = some "high" ||
                             g.confidence = some "medium" then "High"
                         else "Low",
                       matchPct := some (clamped * 5) }]
                let submission : OCRResult :=
                  { id := newSubmissionId
                    user_id := link.user_id
                    student_name := student_name
                    student_accuracy := final_score
                    image_url := stored_file_ref
                    questions := response_regions ++ aiRegions
                    status := final_status
                    manual_score := final_score
                    course_id := material.course_id
                    created_at := now
                    updated_at := now }
                (.ok { submissionId := newSubmissionId
                       status := submission.status
                       score := final_score
                       studentName := student_name
                       fileUrl := to_public_upload_url (some submission.image_url)
                       message := "Ответ отправлен учителю" },
                 { db with ocrResults := db.ocrResults ++ [submission] })

/-! ## Link creation (`POST /share/create`) -/

/-- The request body of `create_share_link` (`ShareConfig`). -/
structure ShareConfig where
  resourceId : String
  resourceType : String
  viewOnly : Option Bool
  allowCopy : Option Bool
  password : Option String
  expiresAt : Option Int
  deriving Repr, DecidableEq

/-- Embedding of the bounded generation loop `for _ in range(10)`: `fuel`
attempts remain and `attempt` candidates were already drawn from the
`choice` stream. -/
def tryGenerateCode (links : List PublicLink) (choice : Nat → Fin 62) :
    Nat → Nat → Option String
  | 0, _ => none
  | fuel + 1, attempt =>
    let candidate := generate_short_code choice (8 * attempt)
    if links.any (fun l => l.short_code = candidate) then
      tryGenerateCode links choice fuel (attempt + 1)
    else some candidate

/-- Embedding of the `create_share_link` handler up to the persisted row (the
response URL string around the short code is presentation and elided; the
returned row carries the short code).  `hashPw` is `get_password_hash`. -/
def create_share_link (db : DB) (now : Int) (newLinkId : String)
    (choice : Nat → Fin 62) (hashPw : String → String) (teacherId : String)
    (config : ShareConfig) : Except HErr PublicLink × DB :=
  let ownership : Except HErr Unit :=
    if config.resourceType = "quiz" then
      match parseUuid config.resourceId with
      | none => .error (.badRequest "Invalid quiz id")
      | some quiz_uuid =>
        if db.quizzes.any (fun q => q.id = quiz_uuid ∧
            db.materials.any (fun m =>
              m.id = q.material_id ∧ m.user_id = teacherId)) then
          .ok ()
        else .error (.notFound "Quiz not found")
    else if config.resourceType = "material" then
      match parseUuid config.resourceId with
      | none => .error (.badRequest "Invalid material id")
      | some material_uuid =>
        if db.materials.any (fun m =>
            m.id = material_uuid ∧ m.user_id = teacherId) then
          .ok ()
        else .error (.notFound "Material not found")
    else .ok ()
  match ownership with
  | .error e => (.error e, db)
  | .ok _ =>
    match tryGenerateCode db.links choice 10 0 with
    | none =>
      (.error (.internalServerError "Failed to generate unique share code"),
        db)
    | some short_code =>
      let hashed_password :=
        match config.password with
        | some p => if p = "" then none else some (hashPw p)
        | none => none
      let link : PublicLink :=
        { id := newLinkId
          user_id := teacherId
          resource_id := config.resourceId
          resource_type := config.resourceType
          short_code := short_code
          view_only := config.viewOnly.getD true
          allow_copy := config.allowCopy.getD false
          password := hashed_password
          expires_at := config.expiresAt
          created_at := now }
      (.ok link, { db with links := db.links ++ [link] })

/-! ## Analytics performance series (`GET /analytics/performance`)

The handler afterwards also computes topic rankings and per-student metrics
from the same `merged_attempts`; those don't feed back into the performance
series and are not embedded here. -/

/-- A point of the performance series.  The handler labels a point with
`day.strftime("%d.%m")`; the label's formatting is presentation, so a point
here carries the day it covers. -/
structure PerformanceItem where
  day : Int
  value : Int
  deriving Repr, DecidableEq

/-- Timestamps are minutes; `.date()` truncates a timestamp to its day. -/
def minutesPerDay : Int := 1440

def dateOfTs (t : Int) : Int := Int.fdiv t minutesPerDay

/-- One element of `merged_attempts`. -/
structure MergedAttempt where
  student : String
  score : Int
  date : Int
  weakTopics : List String
  deriving Repr, DecidableEq

/-- Embedding of `_normalize_status`. -/
def normalizeStatus (value : String) : String :=
  pyLower (pyStrip (pyOrStr (some value) "pending"))

/-- Embedding of the default-and-trim dance `(name or "Ученик").strip() or
"Ученик"`. -/
def displayStudent (name : String) : String :=
  let n := pyStrip (pyOrStr (some name) "Ученик")
  if n = "" then "Ученик" else n

/-- Embedding of one entry of `scored_assignments` (`none` when the row has
neither a manual score nor a student accuracy).  `updated_at` is
non-nullable, so `row.updated_at or row.created_at` is `updated_at`. -/
def scoredAssignment (row : OCRResult) : Option MergedAttempt :=
  let score_value :=
    match row.manual_score with
    | some s => some s
    | none => row.student_accuracy
  match score_value with
  | none => none
  | some s =>
    some { student := displayStudent row.student_name
           score := s
           date := row.updated_at
           weakTopics :=
             if normalizeStatus row.status = "graded" ||
                 normalizeStatus row.status = "reviewed" then []
             else ["Задание"] }

/-- Embedding of one quiz entry of `merged_attempts`. -/
def quizAttempt (r : StudentResult) : MergedAttempt :=
  { student := displayStudent r.student_identifier
    score := (r.score : Int)
    date := r.submission_date
    weakTopics := (r.weak_topics.map pyStrip).filter (fun t => !(t = "")) }

/-- Materials of the requested course owned by the teacher. -/
def courseMaterials (db : DB) (teacherId cid : String) : List Material :=
  db.materials.filter (fun m =>
    m.user_id = teacherId ∧ m.course_id = some cid)

/-- The quiz-result join: student results of the teacher whose quiz belongs
to one of the course's materials.  (The handler orders them by submission
date; ordering does not affect day-bucketing and is elided.) -/
def courseQuizResults (db : DB) (teacherId : String)
    (materialIds : List String) : List StudentResult :=
  db.studentResults.filter (fun r =>
    (r.user_id == teacherId) &&
      (match findQuiz db r.quiz_id with
       | some qz => materialIds.contains qz.material_id
       | none => false))

/-- OCR rows of the teacher tagged with the requested course. -/
def courseAssignmentRows (db : DB) (teacherId cid : String) :
    List OCRResult :=
  db.ocrResults.filter (fun r =>
    r.user_id = teacherId ∧ r.course_id = some cid)

/-- Embedding of `merged_attempts`. -/
def mergedAttempts (db : DB) (teacherId cid : String) : List MergedAttempt :=
  (courseQuizResults db teacherId
      ((courseMaterials db teacherId cid).map (·.id))).map quizAttempt ++
    (courseAssignmentRows db teacherId cid).filterMap scoredAssignment

/-- The scores of the attempts dated on the given day. -/
def dayScores (attempts : List MergedAttempt) (day : Int) : List Int :=
  (attempts.filter (fun a => dateOfTs a.date = day)).map (·.score)

/-- Embedding of `round(sum(day_results) / len(day_results)) if day_results
else 0`. -/
def dayValue (attempts : List MergedAttempt) (day : Int) : Int :=
  let s := dayScores attempts day
  if s.isEmpty then 0 else pyRoundInt s.sum (s.length : Int)

/-- Embedding of the `for offset in range(6, -1, -1)` loop that builds
`performance_items`. -/
def performanceSeries (attempts : List MergedAttempt) (today : Int) :
    List PerformanceItem :=
  (List.range 7).map (fun i =>
    let day := today - (6 - Int.ofNat i)
    { day := day, value := dayValue attempts day })

/-- Embedding of `get_analytics_performance` through the performance series
(the `performance` field of the returned `AnalyticsData`). -/
def get_analytics_performance (db : DB) (teacherId : String)
    (courseId : Option String) (now : Int) : List PerformanceItem :=
  match courseId with
  | none => []
  | some cid =>
    if cid = "" then []
    else
      let materials := courseMaterials db teacherId cid
      if materials.isEmpty then []
      else
        let merged := mergedAttempts db teacherId cid
        if merged.isEmpty then []
        else performanceSeries merged (dateOfTs now)

/-! ## Student-journal comments
(`PATCH /analytics/student-journal/comment`) -/

/-- JSON values as stored in the teacher's `settings` blob. -/
inductive JVal where
  | jstr : String → JVal
  | jdict : List (String × JVal) → JVal
  | jnum : Int → JVal

/-- Embedding of `_normalize_student_key`. -/
def normalizeStudentKey (name : String) : String :=
  pyLower (pyStrip name)

/-- The `settings` blob as a dictionary; any non-dictionary value acts as an
empty one (the `isinstance(..., dict)` checks). -/
def settingsEntries (userSettings : Option JVal) : Dict JVal :=
  match userSettings with
  | some (.jdict entries) => entries
  | _ => []

/-- The `studentDiaryComments` root dictionary inside the settings blob. -/
def commentsRoot (userSettings : Option JVal) : Dict JVal :=
  match dget (settingsEntries userSettings) "studentDiaryComments" with
  | some (.jdict entries) => entries
  | _ => []

/-- The per-course comment dictionary inside the root. -/
def storedCourseComments (userSettings : Option JVal) (course_id : String) :
    Dict JVal :=
  match dget (commentsRoot userSettings) course_id with
  | some (.jdict entries) => entries
  | _ => []

/-- The normalisation loop of `_extract_diary_comments`: string values are
re-keyed under the trimmed, lower-cased key, later entries winning. -/
def normalizeCommentEntries (entries : Dict JVal) : Dict String :=
  entries.foldl (fun acc p =>
    match p.2 with
    | .jstr v => dset acc (pyLower (pyStrip p.1)) v
    | _ => acc) []

/-- Embedding of `_extract_diary_comments`. -/
def extractDiaryComments (settings : Option JVal) (course_id : String) :
    Dict String :=
  normalizeCommentEntries (storedCourseComments settings course_id)

/-- The journal read path for one student: `comments_map.get(student_key,
"")` over `_extract_diary_comments`. -/
def readDiaryComment (settings : Option JVal) (course_id student_key : String) :
    String :=
  (dget (extractDiaryComments settings course_id) student_key).getD ""

/-- The request body of the comment endpoint. -/
structure CommentPayload where
  courseId : Option String
  studentName : Option String
  comment : Option String
  deriving Repr, DecidableEq

/-- The JSON body returned by the comment endpoint. -/
structure CommentResponse where
  courseId : String
  studentName : String
  comment : String
  deriving Repr, DecidableEq

/-- Embedding of the `update_student_journal_comment` handler; the second
component is the teacher's `settings` blob after the handler ran. -/
def update_student_journal_comment (userSettings : Option JVal)
    (payload : CommentPayload) : Except HErr CommentResponse × Option JVal :=
  let course_id := pyStrip (pyOrStr payload.courseId "")
  let student_name := pyStrip (pyOrStr payload.studentName "")
  let comment := pyStrip (pyOrStr payload.comment "")
  if course_id = "" then
    (.error (.unprocessable "courseId is required"), userSettings)
  else if student_name = "" then
    (.error (.unprocessable "studentName is required"), userSettings)
  else
    let settings := settingsEntries userSettings
    let comments_root := commentsRoot userSettings
    let course_comments := storedCourseComments userSettings course_id
    let student_key := normalizeStudentKey student_name
    let course_comments' :=
      if comment = "" then dpop course_comments student_key
      else dset course_comments student_key (.jstr comment)
    let comments_root' := dset comments_root course_id (.jdict course_comments')
    let settings' := dset settings "studentDiaryComments" (.jdict comments_root')
    (.ok { courseId := course_id
           studentName := student_name
           comment :=
             match dget course_comments' student_key with
             | some (JVal.jstr v) => v
             | _ => "" },
     some (.jdict settings'))

/-! ## Concrete fixtures used by witnesses and counterexamples -/

def uuidA : String := "aaaaaaaa-aaaa-aaaa-aaaa-aaaaaaaaaaaa"

def uuidB : String := "bbbbbbbb-bbbb-bbbb-bbbb-bbbbbbbbbbbb"

/-- A material of teacher `t1` in course `c1`. -/
def matA : Material :=
  { id := uuidA, user_id := "t1", title := "Lesson", content := some "text",
    summary := none, course_id := some "c1" }

def q1 : Question :=
  { qid := some "q1", qtype := some "mcq", text := some "Capital of France?",
    question := none, options := some ["Paris", "London"],
    correctAnswer := some "Paris", correct_answer := none, topic := none }

def q2 : Question :=
  { qid := some "q2", qtype := some "mcq", text := some "Six times seven?",
    question := none, options := some ["41", "42"],
    correctAnswer := some "42", correct_answer := none,
    topic := some "Arithmetic" }

/-- A quiz on `matA` with two well-formed questions. -/
def quizB : Quiz :=
  { id := uuidB, material_id := uuidA, title := some "Quiz 1",
    questions := [some q1, some q2], created_at := 0 }

/-- A password-protected quiz link (stored hash `"hpw"`). -/
def linkQuiz : PublicLink :=
  { id := "L1", user_id := "t1", resource_id := uuidB,
    resource_type := "quiz", short_code := "abc12345", view_only := true,
    allow_copy := false, password := some "hpw", expires_at := none,
    created_at := 0 }

/-- An unprotected material link. -/
def linkMat : PublicLink :=
  { id := "L2", user_id := "t1", resource_id := uuidA,
    resource_type := "material", short_code := "mat12345", view_only := true,
    allow_copy := false, password := none, expires_at := none,
    created_at := 0 }

/-- A prior assignment submission by "Alice" on `linkMat`. -/
def rowAlice : OCRResult :=
  { id := "r1", user_id := "t1", student_name := "Alice",
    student_accuracy := none, image_url := "text_submission",
    questions := [assignmentMetaRegion "mat12345" uuidA,
      { rid := "text-response", label := "Ответ ученика", original := "",
        ocrText := "my answer", confidence := "High", matchPct := none }],
    status := "pending", manual_score := none, course_id := some "c1",
    created_at := 0, updated_at := 0 }

/-- The password oracle of the fixtures: `"pw"` verifies against `"hpw"`. -/
def verifyW : String → String → Bool :=
  fun p h => (p == "pw") && (h == "hpw")

def freshW : Nat → String := fun _ => "fresh-id"

/-- Fixture store with the quiz link and the material link. -/
def wdb : DB :=
  { links := [linkQuiz, linkMat], quizzes := [quizB], materials := [matA],
    ocrResults := [rowAlice], studentResults := [] }

/-- Decidable equality on handler outcomes, for witness evaluation. -/
instance exceptDecEq {e a : Type} [DecidableEq e] [DecidableEq a] :
    DecidableEq (Except e a) := fun x y =>
  match x, y with
  | .ok u, .ok v =>
    if h : u = v then isTrue (by rw [h]) else isFalse (by simp [h])
  | .error u, .error v =>
    if h : u = v then isTrue (by rw [h]) else isFalse (by simp [h])
  | .ok _, .error _ => isFalse (by simp)
  | .error _, .ok _ => isFalse (by simp)

/-! ## Claim C7 -/

/-- Claim C7: for every public link whose `expires_at` is set and strictly in
the past at access time, resolving `GET /share/{short_code}` yields Gone —
distinct from NotFound — regardless of whether a password is set on the link
and regardless of the supplied password. -/
theorem claim_C7_expired_link_gone (db : DB) (now : Int)
    (verify : String → String → Bool) (freshIds : Nat → String)
    (short_code code : String) (password : Option String)
    (link : PublicLink) (t : Int)
    (hval : validate_short_code_or_400 short_code = .ok code)
    (hfind : findLink db code = some link)
    (hexp : link.expires_at = some t) (hpast : t < now) :
    get_shared_resource db now verify freshIds short_code password =
        .error (.gone "Shared link has expired") ∧
      ∀ d, get_shared_resource db now verify freshIds short_code password ≠
        .error (.notFound d) := by
  have hexpired : linkExpired link now = true := by
    unfold linkExpired
    rw [hexp]
    simpa using hpast
  have hres : get_shared_resource db now verify freshIds short_code password =
      .error (.gone "Shared link has expired") := by
    unfold get_shared_resource
    simp only [hval, hfind, hexpired, if_true]
  refine ⟨hres, fun d h => ?_⟩
  rw [hres] at h
  simp at h

/-- Witness for C7: the fixture quiz link expired at time 5, accessed at time
10 with a (correct) password supplied. -/
theorem claim_C7_expired_link_gone_witness :
    validate_short_code_or_400 "abc12345" = .ok "abc12345" ∧
      findLink { wdb with
        links := [{ linkQuiz with expires_at := some 5 }] } "abc12345" =
        some { linkQuiz with expires_at := some 5 } ∧
      get_shared_resource { wdb with
          links := [{ linkQuiz with expires_at := some 5 }] } 10 verifyW
          freshW "abc12345" (some "pw") =
        .error (.gone "Shared link has expired") :=
  ⟨by decide, by decide,
    (claim_C7_expired_link_gone
      { wdb with links := [{ linkQuiz with expires_at := some 5 }] } 10
      verifyW freshW "abc12345" "abc12345" (some "pw")
      { linkQuiz with expires_at := some 5 } 5 (by decide) (by decide) rfl
      (by decide)).1⟩

/-! ## Claim C6 -/

/-- Claim C6: grading a shared quiz whose well-formed question list is empty
always fails with BadRequest, and the score division is unreachable unless
the question total is positive: every successful submit response has
`total > 0`. -/
theorem claim_C6_empty_quiz_bad_request (db : DB) (now : Int) (rid : String)
    (short_code code : String) (payload : SubmitPayload) (link : PublicLink)
    (quiz : Quiz) (qid : String)
    (hval : validate_short_code_or_400 short_code = .ok code)
    (hfind : findLink db code = some link)
    (hexp : linkExpired link now = false)
    (htype : link.resource_type = "quiz")
    (hparse : parseUuid link.resource_id = some qid)
    (hquiz : findQuiz db qid = some quiz)
    (hempty : quiz.questions.filterMap id = []) :
    submit_shared_quiz db now rid short_code payload =
        (.error (.badRequest "Quiz has no questions"), db) ∧
      ∀ (db2 : DB) (now2 : Int) (rid2 sc2 : String)
        (payload2 : SubmitPayload) (r : SubmitResponse) (db' : DB),
        submit_shared_quiz db2 now2 rid2 sc2 payload2 = (.ok r, db') →
          0 < r.total := by
  constructor
  · unfold submit_shared_quiz
    simp only [hval, hfind, hexp, htype, hparse, hquiz]
    simp [hempty]
  · intro db2 now2 rid2 sc2 payload2 r db' h
    unfold submit_shared_quiz at h
    repeat' split at h
    all_goals try (dsimp only [] at h; repeat' split at h)
    all_goals simp at h
    all_goals
      obtain ⟨hok, -⟩ := h
      subst hok
      simp_all [List.isEmpty_iff, List.length_pos]

/-- Witness for C6: the fixture quiz with its questions replaced by a single
non-dictionary entry; the submission is rejected with BadRequest. -/
theorem claim_C6_empty_quiz_bad_request_witness :
    (({ wdb with quizzes := [{ quizB with questions := [none] }] } : DB),
        ((5 : Int), "abc12345")).2.2 = "abc12345" ∧
      submit_shared_quiz
        { wdb with quizzes := [{ quizB with questions := [none] }] } 5 "sr9"
        "abc12345" { answers := [], studentName := none } =
        (.error (.badRequest "Quiz has no questions"),
          { wdb with quizzes := [{ quizB with questions := [none] }] }) :=
  ⟨rfl,
    (claim_C6_empty_quiz_bad_request
      { wdb with quizzes := [{ quizB with questions := [none] }] } 5 "sr9"
      "abc12345" "abc12345" { answers := [], studentName := none } linkQuiz
      { quizB with questions := [none] } uuidB (by decide) (by decide) rfl
      rfl rfl (by decide) rfl).1⟩

/-! ## Successful submit runs -/

/-- The question entries that survive the `isinstance(q, dict)` filter. -/
def wellFormedQuestions (quiz : Quiz) : List Question :=
  quiz.questions.filterMap id

/-- The score expression of `submit_shared_quiz`. -/
def submitScore (answers : Dict String) (qs : List Question) : Nat :=
  if 0 < qs.length then pyRound ((gradeLoop answers qs).1 * 100) qs.length
  else 0

/-- The response a successful submit run returns. -/
def submitResponseFor (quiz : Quiz) (payload : SubmitPayload) :
    SubmitResponse :=
  let qs := wellFormedQuestions quiz
  { quizId := quiz.id
    studentName := pyTake 255 (pyStrip (pyOrStr payload.studentName "Student"))
    score := submitScore payload.answers qs
    correct := (gradeLoop payload.answers qs).1
    total := qs.length
    details := (gradeLoop payload.answers qs).2.1 }

/-- The `StudentResult` row a successful submit run persists. -/
def submitResultRow (now : Int) (rid : String) (link : PublicLink)
    (quiz : Quiz) (payload : SubmitPayload) : StudentResult :=
  let qs := wellFormedQuestions quiz
  { id := rid
    user_id := link.user_id
    student_identifier :=
      pyTake 255 (pyStrip (pyOrStr payload.studentName "Student"))
    quiz_id := quiz.id
    score := submitScore payload.answers qs
    weak_topics := (gradeLoop payload.answers qs).2.2
    submission_date := now }

theorem submit_shared_quiz_ok (db : DB) (now : Int) (rid : String)
    (short_code code : String) (payload : SubmitPayload) (link : PublicLink)
    (quiz : Quiz) (qid : String)
    (hval : validate_short_code_or_400 short_code = .ok code)
    (hfind : findLink db code = some link)
    (hexp : linkExpired link now = false)
    (htype : link.resource_type = "quiz")
    (hparse : parseUuid link.resource_id = some qid)
    (hquiz : findQuiz db qid = some quiz)
    (hne : wellFormedQuestions quiz ≠ []) :
    submit_shared_quiz db now rid short_code payload =
      (.ok (submitResponseFor quiz payload),
        { db with studentResults :=
            db.studentResults ++ [submitResultRow now rid link quiz payload] }) := by
  have hie : (quiz.questions.filterMap id).isEmpty = false := by
    simpa [List.isEmpty_iff, wellFormedQuestions] using hne
  unfold submit_shared_quiz
  simp only [hval, hfind, hexp, htype, hparse, hquiz, hie]
  rfl

/-! ## Claim C5 -/

/-- The correctness criterion as the specification words it: the submitted
answer equals the stored correct answer after trimming whitespace and
lower-casing, and the stored answer is non-empty. -/
def specAnswerCorrect (answers : Dict String) (q : Question) : Bool :=
  let stored := pyStrip (pyOr2 q.correctAnswer q.correct_answer)
  let submitted := pyStrip ((dget answers (pyOrStr q.qid "")).getD "")
  !(stored = "") && (pyLower submitted = pyLower stored)

theorem gradeQuestion_isCorrect_eq_spec (answers : Dict String)
    (q : Question) :
    (gradeQuestion answers q).isCorrect = specAnswerCorrect answers q := by
  unfold gradeQuestion specAnswerCorrect
  dsimp only
  by_cases h : pyStrip (pyOr2 q.correctAnswer q.correct_answer) = "" <;>
    simp [h]

theorem gradeLoop_correct (answers : Dict String) (qs : List Question) :
    (gradeLoop answers qs).1 =
      (qs.map (gradeQuestion answers)).countP (fun d => d.isCorrect) := by
  induction qs with
  | nil => rfl
  | cons q rest ih =>
    simp only [gradeLoop, List.map_cons, List.countP_cons, ih]
    by_cases h : (gradeQuestion answers q).isCorrect
    · simp only [h, if_true]
      omega
    · simp [h]

theorem gradeLoop_details (answers : Dict String) (qs : List Question) :
    (gradeLoop answers qs).2.1 = qs.map (gradeQuestion answers) := by
  induction qs with
  | nil => rfl
  | cons q rest ih => simp only [gradeLoop, List.map_cons, ih]

/-- Claim C5: for every quiz with at least one well-formed question, a
successful shared-quiz submission returns `score = round(100 * correct /
total)` with `0 ≤ score ≤ 100`; a question counts as correct exactly when
the submitted and stored answers agree after trimming and lower-casing and
the stored answer is non-empty, and a question with an empty stored answer
is graded incorrect but still counted, never skipped. -/
theorem claim_C5_score_formula (db : DB) (now : Int) (rid : String)
    (short_code code : String) (payload : SubmitPayload) (link : PublicLink)
    (quiz : Quiz) (qid : String)
    (hval : validate_short_code_or_400 short_code = .ok code)
    (hfind : findLink db code = some link)
    (hexp : linkExpired link now = false)
    (htype : link.resource_type = "quiz")
    (hparse : parseUuid link.resource_id = some qid)
    (hquiz : findQuiz db qid = some quiz)
    (hne : wellFormedQuestions quiz ≠ []) :
    ∃ (r : SubmitResponse) (db' : DB),
      submit_shared_quiz db now rid short_code payload = (.ok r, db') ∧
      r.total = (wellFormedQuestions quiz).length ∧ 0 < r.total ∧
      r.correct =
        (wellFormedQuestions quiz).countP (specAnswerCorrect payload.answers) ∧
      r.correct ≤ r.total ∧
      r.score = pyRound (100 * r.correct) r.total ∧ r.score ≤ 100 ∧
      r.details =
        (wellFormedQuestions quiz).map (gradeQuestion payload.answers) ∧
      ∀ q ∈ wellFormedQuestions quiz,
        pyStrip (pyOr2 q.correctAnswer q.correct_answer) = "" →
          gradeQuestion payload.answers q ∈ r.details ∧
            (gradeQuestion payload.answers q).isCorrect = false := by
  have hlen : 0 < (wellFormedQuestions quiz).length := List.length_pos.mpr hne
  have hcor : (gradeLoop payload.answers (wellFormedQuestions quiz)).1 =
      (wellFormedQuestions quiz).countP (specAnswerCorrect payload.answers) := by
    rw [gradeLoop_correct, List.countP_map]
    exact List.countP_congr (fun q _ => by
      simp [Function.comp, gradeQuestion_isCorrect_eq_spec])
  have hcorle : (gradeLoop payload.answers (wellFormedQuestions quiz)).1 ≤
      (wellFormedQuestions quiz).length := by
    rw [gradeLoop_correct]
    exact le_trans (List.countP_le_length _) (by rw [List.length_map])
  refine ⟨submitResponseFor quiz payload, _,
    submit_shared_quiz_ok db now rid short_code code payload link quiz qid
      hval hfind hexp htype hparse hquiz hne, rfl, ?_, ?_, ?_, ?_, ?_, ?_, ?_⟩
  · exact hlen
  · exact hcor
  · exact hcorle
  · dsimp only [submitResponseFor]
    unfold submitScore
    rw [if_pos hlen, Nat.mul_comm]
  · dsimp only [submitResponseFor]
    unfold submitScore
    rw [if_pos hlen]
    exact pyRound_le _ _ 100 hlen (by
      calc (gradeLoop payload.answers (wellFormedQuestions quiz)).1 * 100
          ≤ (wellFormedQuestions quiz).length * 100 :=
            Nat.mul_le_mul_right 100 hcorle
        _ = 100 * (wellFormedQuestions quiz).length := Nat.mul_comm _ _)
  · exact gradeLoop_details payload.answers (wellFormedQuestions quiz)
  · intro q hq hstored
    constructor
    · dsimp only [submitResponseFor]
      rw [gradeLoop_details]
      exact List.mem_map_of_mem _ hq
    · unfold gradeQuestion
      dsimp only
      simp [hstored]

/-- Witness for C5: the spec's own scenario — answers "paris" and "41"
against stored answers "Paris" and "42" give score 50, `correct = 1`,
`total = 2`. -/
theorem claim_C5_score_formula_witness :
    wellFormedQuestions quizB ≠ [] ∧
      (∃ (r : SubmitResponse) (db' : DB),
        submit_shared_quiz wdb 5 "sr1" "abc12345"
          { answers := [("q1", "  paris "), ("q2", "41")],
            studentName := some "  Bob " } = (.ok r, db') ∧
        r.total = (wellFormedQuestions quizB).length ∧ 0 < r.total ∧
        r.correct = (wellFormedQuestions quizB).countP
          (specAnswerCorrect [("q1", "  paris "), ("q2", "41")]) ∧
        r.correct ≤ r.total ∧
        r.score = pyRound (100 * r.correct) r.total ∧ r.score ≤ 100 ∧
        r.details = (wellFormedQuestions quizB).map
          (gradeQuestion [("q1", "  paris "), ("q2", "41")]) ∧
        ∀ q ∈ wellFormedQuestions quizB,
          pyStrip (pyOr2 q.correctAnswer q.correct_answer) = "" →
            gradeQuestion [("q1", "  paris "), ("q2", "41")] q ∈ r.details ∧
              (gradeQuestion [("q1", "  paris "), ("q2", "41")] q).isCorrect =
                false) ∧
      (submitResponseFor quizB
        { answers := [("q1", "  paris "), ("q2", "41")],
          studentName := some "  Bob " }).score = 50 ∧
      (submitResponseFor quizB
        { answers := [("q1", "  paris "), ("q2", "41")],
          studentName := some "  Bob " }).correct = 1 ∧
      (submitResponseFor quizB
        { answers := [("q1", "  paris "), ("q2", "41")],
          studentName := some "  Bob " }).total = 2 :=
  ⟨by decide,
    claim_C5_score_formula wdb 5 "sr1" "abc12345" "abc12345"
      { answers := [("q1", "  paris "), ("q2", "41")],
        studentName := some "  Bob " } linkQuiz quizB uuidB (by decide)
      (by decide) rfl rfl rfl (by decide) (by decide),
    by decide, by decide, by decide⟩

/-! ## Claim C9 -/

/-- Claim C9: `POST /share/{short_code}/submit` never enforces the link's
password.  For a password-protected, unexpired quiz link, a submission —
whose body carries no password, as the handler reads only `answers` and
`studentName` — is graded and persisted as a `StudentResult` row, and every
detail of the response exposes the stored (trimmed) correct answer of its
question. -/
theorem claim_C9_submit_ignores_password (db : DB) (now : Int) (rid : String)
    (short_code code : String) (payload : SubmitPayload) (link : PublicLink)
    (quiz : Quiz) (qid hash : String)
    (hval : validate_short_code_or_400 short_code = .ok code)
    (hfind : findLink db code = some link)
    (hpw : link.password = some hash) (hnz : hash ≠ "")
    (hexp : linkExpired link now = false)
    (htype : link.resource_type = "quiz")
    (hparse : parseUuid link.resource_id = some qid)
    (hquiz : findQuiz db qid = some quiz)
    (hne : wellFormedQuestions quiz ≠ []) :
    submit_shared_quiz db now rid short_code payload =
        (.ok (submitResponseFor quiz payload),
          { db with studentResults := db.studentResults ++
              [submitResultRow now rid link quiz payload] }) ∧
      (submitResponseFor quiz payload).details.map (fun d => d.correctAnswer) =
        (wellFormedQuestions quiz).map
          (fun q => pyStrip (pyOr2 q.correctAnswer q.correct_answer)) := by
  constructor
  · exact submit_shared_quiz_ok db now rid short_code code payload link quiz
      qid hval hfind hexp htype hparse hquiz hne
  · dsimp only [submitResponseFor]
    rw [gradeLoop_details, List.map_map]
    rfl

/-- Witness for C9: a nameless submission with no password against the
password-protected fixture link succeeds and exposes both stored answers. -/
theorem claim_C9_submit_ignores_password_witness :
    linkQuiz.password = some "hpw" ∧
      (submit_shared_quiz wdb 5 "sr2" "abc12345"
          { answers := [], studentName := none } =
        (.ok (submitResponseFor quizB { answers := [], studentName := none }),
          { wdb with studentResults := wdb.studentResults ++
              [submitResultRow 5 "sr2" linkQuiz quizB
                { answers := [], studentName := none }] }) ∧
      (submitResponseFor quizB
          { answers := [], studentName := none }).details.map
          (fun d => d.correctAnswer) =
        (wellFormedQuestions quizB).map
          (fun q => pyStrip (pyOr2 q.correctAnswer q.correct_answer))) :=
  ⟨rfl,
    claim_C9_submit_ignores_password wdb 5 "sr2" "abc12345" "abc12345"
      { answers := [], studentName := none } linkQuiz quizB uuidB "hpw"
      (by decide) (by decide) rfl (by decide) rfl rfl (by decide) (by decide)
      (by decide)⟩

/-! ## Claim C8 -/

/-- A question with its answer keys erased. -/
def eraseAnswers (q : Question) : Question :=
  { q with correctAnswer := none, correct_answer := none }

theorem publicQuestions_enumFrom_erase (freshIds : Nat → String)
    (qs : List (Option Question)) : ∀ n,
    (List.enumFrom n (qs.map (Option.map eraseAnswers))).filterMap
        (fun p => p.2.map (publicQuestion (freshIds p.1))) =
      (List.enumFrom n qs).filterMap
        (fun p => p.2.map (publicQuestion (freshIds p.1))) := by
  induction qs with
  | nil => intro n; rfl
  | cons q rest ih =>
    intro n
    cases q <;>
      simp [List.enumFrom, List.filterMap_cons, ih, publicQuestion,
        eraseAnswers]

/-- Claim C8: on an unexpired link with a password hash set, resolution with
no password, an empty password, or a non-verifying password is Unauthorized;
with a verifying password the quiz payload is returned, and its questions
are independent of the stored answer keys (the serialisation never reads
them, so the answer key is stripped). -/
theorem claim_C8_password_and_stripping (db : DB) (now : Int)
    (verify : String → String → Bool) (freshIds : Nat → String)
    (short_code code : String) (link : PublicLink) (hash : String)
    (hval : validate_short_code_or_400 short_code = .ok code)
    (hfind : findLink db code = some link)
    (hexp : linkExpired link now = false)
    (hpw : link.password = some hash) (hnz : hash ≠ "") :
    (get_shared_resource db now verify freshIds short_code none =
        .error (.unauthorized "Password required or invalid")) ∧
      (∀ p, p = "" ∨ verify p hash = false →
        get_shared_resource db now verify freshIds short_code (some p) =
          .error (.unauthorized "Password required or invalid")) ∧
      (∀ p, p ≠ "" → verify p hash = true →
        ∀ (quiz : Quiz) (qid : String), link.resource_type = "quiz" →
          parseUuid link.resource_id = some qid → findQuiz db qid = some quiz →
          get_shared_resource db now verify freshIds short_code (some p) =
            .ok (.quizPayload code link.view_only link.allow_copy
              (pyOrStr quiz.title
                (match findMaterial db quiz.material_id with
                 | some m => m.title
                 | none => "Quiz"))
              quiz.id (publicQuestions freshIds quiz.questions))) ∧
      (∀ qs, publicQuestions freshIds (qs.map (Option.map eraseAnswers)) =
        publicQuestions freshIds qs) := by
  refine ⟨?_, ?_, ?_, ?_⟩
  · have hrej : passwordRejected link none verify = true := by
      unfold passwordRejected
      rw [hpw]
      simp [hnz]
    unfold get_shared_resource
    simp only [hval, hfind, hexp, hrej, if_true]
    simp
  · intro p hp
    have hrej : passwordRejected link (some p) verify = true := by
      unfold passwordRejected
      rw [hpw]
      rcases hp with hp | hp
      · simp [hnz, hp]
      · by_cases hpe : p = "" <;> simp [hnz, hpe, hp]
    unfold get_shared_resource
    simp only [hval, hfind, hexp, hrej, if_true]
    simp
  · intro p hpne hver quiz qid htype hparse hquiz
    have hrej : passwordRejected link (some p) verify = false := by
      unfold passwordRejected
      rw [hpw]
      simp [hnz, hpne, hver]
    unfold get_shared_resource
    simp only [hval, hfind, hexp, hrej, htype, hparse, hquiz]
    simp
  · intro qs
    unfold publicQuestions
    exact publicQuestions_enumFrom_erase freshIds qs 0

/-- Witness for C8: the fixture quiz link with stored hash `"hpw"`; no
password and the wrong password `"bad"` are Unauthorized, while `"pw"`
returns the stripped two-question payload. -/
theorem claim_C8_password_and_stripping_witness :
    linkQuiz.password = some "hpw" ∧
      (get_shared_resource wdb 5 verifyW freshW "abc12345" none =
          .error (.unauthorized "Password required or invalid")) ∧
      (get_shared_resource wdb 5 verifyW freshW "abc12345" (some "bad") =
          .error (.unauthorized "Password required or invalid")) ∧
      (get_shared_resource wdb 5 verifyW freshW "abc12345" (some "pw") =
          .ok (.quizPayload "abc12345" true false "Quiz 1" uuidB
            [{ pid := "q1", ptype := "mcq", ptext := "Capital of France?",
               poptions := ["Paris", "London"] },
             { pid := "q2", ptype := "mcq", ptext := "Six times seven?",
               poptions := ["41", "42"] }])) :=
  ⟨rfl,
    (claim_C8_password_and_stripping wdb 5 verifyW freshW "abc12345"
      "abc12345" linkQuiz "hpw" (by decide) (by decide) rfl rfl
      (by decide)).1,
    (claim_C8_password_and_stripping wdb 5 verifyW freshW "abc12345"
      "abc12345" linkQuiz "hpw" (by decide) (by decide) rfl rfl
      (by decide)).2.1 "bad" (Or.inr (by decide)),
    ((claim_C8_password_and_stripping wdb 5 verifyW freshW "abc12345"
      "abc12345" linkQuiz "hpw" (by decide) (by decide) rfl rfl
      (by decide)).2.2.1 "pw" (by decide) (by decide) quizB uuidB rfl rfl
      (by decide)).trans (by decide)⟩

/-! ## Successful upload runs -/

/-- `stored_file_ref` of the upload handler. -/
def uploadStoredFileRef (saved_path : String) (file : Option FileInput) :
    String :=
  if file.isSome then to_public_upload_url (some saved_path) else saved_path

/-- `auto_grade` of the upload handler: the grader runs only on a non-empty
combined answer. -/
def uploadAutoGrade (code response_text : String) (file : Option FileInput)
    (material : Material) (grader : GraderOutcome) : Option AutoGrade :=
  if uploadCombinedAnswer code material.id response_text file = "" then none
  else
    evaluate_assignment_submission grader
      (pyOr2 material.summary material.content)
      (uploadCombinedAnswer code material.id response_text file) 20

/-- The `assignment-ai-feedback` region (absent without an auto-grade). -/
def uploadAIRegions (auto_grade : Option AutoGrade) : List Region :=
  match auto_grade with
  | none => []
  | some g =>
    let clamped := max 0 (min 20 g.score)
    [{ rid := "assignment-ai-feedback", label := "AI проверка",
       original := "",
       ocrText := pyOrStr g.feedback "Автоматическая проверка выполнена.",
       confidence :=
         if g.confidence = some "high" || g.confidence = some "medium" then
           "High"
         else "Low",
       matchPct := some (clamped * 5) }]

/-- The `OCRResult` row a successful upload run persists. -/
def uploadSubmissionRow (now : Int) (sid : String) (link : PublicLink)
    (material : Material) (code student_name response_text saved_path : String)
    (file : Option FileInput) (grader : GraderOutcome) : OCRResult :=
  let auto_grade := uploadAutoGrade code response_text file material grader
  { id := sid
    user_id := link.user_id
    student_name := student_name
    student_accuracy := auto_grade.map (·.score)
    image_url := uploadStoredFileRef saved_path file
    questions := uploadResponseRegions code material.id response_text file ++
      uploadAIRegions auto_grade
    status := "pending"
    manual_score := auto_grade.map (·.score)
    course_id := material.course_id
    created_at := now
    updated_at := now }

/-- The JSON body a successful upload run returns. -/
def uploadResponseFor (sid : String) (material : Material)
    (code student_name response_text saved_path : String)
    (file : Option FileInput) (grader : GraderOutcome) : UploadResponse :=
  let auto_grade := uploadAutoGrade code response_text file material grader
  { submissionId := sid
    status := "pending"
    score := auto_grade.map (·.score)
    studentName := student_name
    fileUrl :=
      to_public_upload_url (some (uploadStoredFileRef saved_path file))
    message := "Ответ отправлен учителю" }

theorem upload_assignment_file_ok (db : DB) (now : Int) (sid : String)
    (short_code code : String) (studentName responseText : Option String)
    (file : Option FileInput) (grader : GraderOutcome) (link : PublicLink)
    (material : Material) (mid saved_path : String)
    (hval : validate_short_code_or_400 short_code = .ok code)
    (hfind : findLink db code = some link)
    (hexp : linkExpired link now = false)
    (htype : link.resource_type = "material")
    (hparse : parseUuid link.resource_id = some mid)
    (hmat : findMaterial db mid = some material)
    (hgate : ¬(file.isNone = true ∧ pyStrip (responseText.getD "") = ""))
    (hnodup : duplicateSubmission db link code
      (submittedStudentName studentName) = false)
    (hsave : fileSaveGate file = .ok saved_path) :
    upload_assignment_file db now sid short_code studentName responseText file
        grader =
      (.ok (uploadResponseFor sid material code
          (submittedStudentName studentName)
          (pyStrip (responseText.getD "")) saved_path file grader),
        { db with ocrResults := db.ocrResults ++
            [uploadSubmissionRow now sid link material code
              (submittedStudentName studentName)
              (pyStrip (responseText.getD "")) saved_path file grader] }) := by
  have hgateb : (file.isNone && pyStrip (responseText.getD "") = "") = false := by
    rcases h : file.isNone with _ | _
    · simp
    · rcases h2 : decide (pyStrip (responseText.getD "") = "") with _ | _
      · simp [h2]
      · exact absurd ⟨h, by simpa using h2⟩ hgate
  unfold upload_assignment_file
  simp only [hval, hfind, hexp, htype, hparse, hmat, hgateb, hnodup, hsave]
  rfl

/-! ## Claim C3 -/

/-- Counterexample for C3: the store already holds a submission by "Alice"
on the material link, and an upload for "ALICE" — equal to "Alice" under the
case-insensitive comparison the claim asserts — is NOT rejected with
Conflict: it succeeds and persists a second row.  The dedup query compares
`student_name` with SQL `=`, which is case-sensitive. -/
theorem claim_C3_counterexample :
    (upload_assignment_file wdb 0 "r2" "mat12345" (some "ALICE")
        (some "hello") none .failed).1 =
      .ok { submissionId := "r2", status := "pending", score := none,
            studentName := "ALICE",
            fileUrl := "/api/v1/uploads/text_submission",
            message := "Ответ отправлен учителю" } ∧
    (upload_assignment_file wdb 0 "r2" "mat12345" (some "ALICE")
        (some "hello") none .failed).2.ocrResults.length =
      wdb.ocrResults.length + 1 ∧
    rowAlice ∈ wdb.ocrResults ∧ rowAlice.student_name = "Alice" ∧
    rowMentionsLink "mat12345" rowAlice = true ∧
    pyLower (pyStrip "ALICE") = pyLower (pyStrip "Alice") := by
  decide

/-- Claim C3 (amended): on a material share link, a second submission whose
student name matches a prior submission's stored name on the same link
exactly (after trimming, 255-character truncation and empty-name
defaulting; the comparison is case-sensitive) is rejected with Conflict and
persists no new row; if no prior submission on the link carries exactly the
submitted name — in particular when the name differs only in letter case —
the upload succeeds and persists a new row. -/
theorem claim_C3_casesensitive_dedup (db : DB) (now : Int) (sid : String)
    (short_code code : String) (studentName responseText : Option String)
    (file : Option FileInput) (grader : GraderOutcome) (link : PublicLink)
    (material : Material) (mid : String)
    (hval : validate_short_code_or_400 short_code = .ok code)
    (hfind : findLink db code = some link)
    (hexp : linkExpired link now = false)
    (htype : link.resource_type = "material")
    (hparse : parseUuid link.resource_id = some mid)
    (hmat : findMaterial db mid = some material) :
    (duplicateSubmission db link code (submittedStudentName studentName) =
        true →
      ¬(file.isNone = true ∧ pyStrip (responseText.getD "") = "") →
      upload_assignment_file db now sid short_code studentName responseText
          file grader =
        (.error (.conflict "Вы уже отправили это задание"), db)) ∧
    (∀ saved_path,
      duplicateSubmission db link code (submittedStudentName studentName) =
        false →
      ¬(file.isNone = true ∧ pyStrip (responseText.getD "") = "") →
      fileSaveGate file = .ok saved_path →
      upload_assignment_file db now sid short_code studentName responseText
          file grader =
        (.ok (uploadResponseFor sid material code
            (submittedStudentName studentName)
            (pyStrip (responseText.getD "")) saved_path file grader),
          { db with ocrResults := db.ocrResults ++
              [uploadSubmissionRow now sid link material code
                (submittedStudentName studentName)
                (pyStrip (responseText.getD "")) saved_path file grader] })) ∧
    ((∀ row ∈ db.ocrResults,
        ¬(row.user_id = link.user_id ∧
          row.student_name = submittedStudentName studentName ∧
          rowMentionsLink code row = true)) →
      duplicateSubmission db link code (submittedStudentName studentName) =
        false) := by
  refine ⟨?_, ?_, ?_⟩
  · intro hdup hgate
    have hgateb :
        (file.isNone && pyStrip (responseText.getD "") = "") = false := by
      rcases h : file.isNone with _ | _
      · simp
      · rcases h2 : decide (pyStrip (responseText.getD "") = "") with _ | _
        · simp [h2]
        · exact absurd ⟨h, by simpa using h2⟩ hgate
    unfold upload_assignment_file
    simp only [hval, hfind, hexp, htype, hparse, hmat, hgateb, hdup, if_true]
    simp
  · intro saved_path hnodup hgate hsave
    exact upload_assignment_file_ok db now sid short_code code studentName
      responseText file grader link material mid saved_path hval hfind hexp
      htype hparse hmat hgate hnodup hsave
  · intro hall
    unfold duplicateSubmission
    rw [List.find?_eq_none.mpr]
    · rfl
    · intro row hrow
      simpa using hall row hrow

/-- Witness for the amended C3: a repeat of "  Alice " (trimming to the
stored "Alice") is a Conflict that leaves the store unchanged, while "ALICE"
passes the duplicate check and persists. -/
theorem claim_C3_casesensitive_dedup_witness :
    duplicateSubmission wdb linkMat "mat12345"
        (submittedStudentName (some "  Alice ")) = true ∧
      upload_assignment_file wdb 0 "r3" "mat12345" (some "  Alice ")
          (some "hi") none .failed =
        (.error (.conflict "Вы уже отправили это задание"), wdb) ∧
      duplicateSubmission wdb linkMat "mat12345"
        (submittedStudentName (some "ALICE")) = false ∧
      upload_assignment_file wdb 0 "r2" "mat12345" (some "ALICE")
          (some "hello") none .failed =
        (.ok (uploadResponseFor "r2" matA "mat12345" "ALICE" "hello"
            "text_submission" none .failed),
          { wdb with ocrResults := wdb.ocrResults ++
              [uploadSubmissionRow 0 "r2" linkMat matA "mat12345" "ALICE"
                "hello" "text_submission" none .failed] }) :=
  ⟨by decide,
    (claim_C3_casesensitive_dedup wdb 0 "r3" "mat12345" "mat12345"
      (some "  Alice ") (some "hi") none .failed linkMat matA uuidA
      (by decide) (by decide) rfl rfl rfl (by decide)).1 (by decide)
      (by decide),
    by decide,
    ((claim_C3_casesensitive_dedup wdb 0 "r2" "mat12345" "mat12345"
      (some "ALICE") (some "hello") none .failed linkMat matA uuidA
      (by decide) (by decide) rfl rfl rfl (by decide)).2.1 "text_submission"
      (by decide) (by decide) rfl).trans (by decide)⟩

/-! ## Claim C1 -/

/-- Claim C1: for every assignment submission whose combined answer text is
non-empty, a failure of the external auto-grader does not fail the
submission — the handler still persists the `OCRResult` row with status
"pending" and no automatic score, and returns its `submissionId`.  The
grader (`AIService.evaluate_assignment_submission`) is modelled from the
spec; see its doc comment. -/
theorem claim_C1_grader_failure_swallowed (db : DB) (now : Int)
    (sid : String) (short_code code : String)
    (studentName responseText : Option String) (file : Option FileInput)
    (link : PublicLink) (material : Material) (mid saved_path : String)
    (hval : validate_short_code_or_400 short_code = .ok code)
    (hfind : findLink db code = some link)
    (hexp : linkExpired link now = false)
    (htype : link.resource_type = "material")
    (hparse : parseUuid link.resource_id = some mid)
    (hmat : findMaterial db mid = some material)
    (hgate : ¬(file.isNone = true ∧ pyStrip (responseText.getD "") = ""))
    (hnodup : duplicateSubmission db link code
      (submittedStudentName studentName) = false)
    (hsave : fileSaveGate file = .ok saved_path)
    (hcombined : uploadCombinedAnswer code material.id
      (pyStrip (responseText.getD "")) file ≠ "") :
    ∃ (resp : UploadResponse) (db' : DB),
      upload_assignment_file db now sid short_code studentName responseText
          file .failed = (.ok resp, db') ∧
      resp.submissionId = sid ∧ resp.status = "pending" ∧
      resp.score = none ∧
      db'.ocrResults = db.ocrResults ++
        [uploadSubmissionRow now sid link material code
          (submittedStudentName studentName)
          (pyStrip (responseText.getD "")) saved_path file .failed] ∧
      (uploadSubmissionRow now sid link material code
        (submittedStudentName studentName)
        (pyStrip (responseText.getD "")) saved_path file .failed).status =
          "pending" ∧
      (uploadSubmissionRow now sid link material code
        (submittedStudentName studentName) (pyStrip (responseText.getD ""))
        saved_path file .failed).student_accuracy = none ∧
      (uploadSubmissionRow now sid link material code
        (submittedStudentName studentName) (pyStrip (responseText.getD ""))
        saved_path file .failed).manual_score = none := by
  have hag : uploadAutoGrade code (pyStrip (responseText.getD "")) file
      material .failed = none := by
    unfold uploadAutoGrade evaluate_assignment_submission
    split <;> rfl
  refine ⟨_, _,
    upload_assignment_file_ok db now sid short_code code studentName
      responseText file .failed link material mid saved_path hval hfind hexp
      htype hparse hmat hgate hnodup hsave, rfl, rfl, ?_, rfl, rfl, ?_, ?_⟩
  · dsimp only [uploadResponseFor]
    rw [hag]
    rfl
  · dsimp only [uploadSubmissionRow]
    rw [hag]
    rfl
  · dsimp only [uploadSubmissionRow]
    rw [hag]
    rfl

/-- Witness for C1: "Bob" submits the text "hello" on the material link
while the grader is down; the submission is persisted as pending with no
score. -/
theorem claim_C1_grader_failure_swallowed_witness :
    uploadCombinedAnswer "mat12345" matA.id
        (pyStrip ((some "hello").getD "")) none ≠ "" ∧
      (∃ (resp : UploadResponse) (db' : DB),
        upload_assignment_file wdb 0 "r4" "mat12345" (some "Bob")
            (some "hello") none .failed = (.ok resp, db') ∧
        resp.submissionId = "r4" ∧ resp.status = "pending" ∧
        resp.score = none ∧
        db'.ocrResults = wdb.ocrResults ++
          [uploadSubmissionRow 0 "r4" linkMat matA "mat12345"
            (submittedStudentName (some "Bob"))
            (pyStrip ((some "hello").getD "")) "text_submission" none
            .failed] ∧
        (uploadSubmissionRow 0 "r4" linkMat matA "mat12345"
          (submittedStudentName (some "Bob"))
          (pyStrip ((some "hello").getD "")) "text_submission" none
          .failed).status = "pending" ∧
        (uploadSubmissionRow 0 "r4" linkMat matA "mat12345"
          (submittedStudentName (some "Bob"))
          (pyStrip ((some "hello").getD "")) "text_submission" none
          .failed).student_accuracy = none ∧
        (uploadSubmissionRow 0 "r4" linkMat matA "mat12345"
          (submittedStudentName (some "Bob"))
          (pyStrip ((some "hello").getD "")) "text_submission" none
          .failed).manual_score = none) :=
  ⟨by decide,
    claim_C1_grader_failure_swallowed wdb 0 "r4" "mat12345" "mat12345"
      (some "Bob") (some "hello") none linkMat matA uuidA "text_submission"
      (by decide) (by decide) rfl rfl rfl (by decide) (by decide) (by decide)
      rfl (by decide)⟩

/-! ## Claim C4 -/

/-- The `[A-Za-z0-9]` alphabet of generated codes. -/
def isAsciiAlphanum (c : Char) : Bool :=
  ('A' ≤ c && c ≤ 'Z') || ('a' ≤ c && c ≤ 'z') || ('0' ≤ c && c ≤ '9')

/-- The ownership gate of `create_share_link`. -/
def shareOwnershipCheck (db : DB) (teacherId : String)
    (config : ShareConfig) : Except HErr Unit :=
  if config.resourceType = "quiz" then
    match parseUuid config.resourceId with
    | none => .error (.badRequest "Invalid quiz id")
    | some quiz_uuid =>
      if db.quizzes.any (fun q => q.id = quiz_uuid ∧
          db.materials.any (fun m =>
            m.id = q.material_id ∧ m.user_id = teacherId)) then
        .ok ()
      else .error (.notFound "Quiz not found")
  else if config.resourceType = "material" then
    match parseUuid config.resourceId with
    | none => .error (.badRequest "Invalid material id")
    | some material_uuid =>
      if db.materials.any (fun m =>
          m.id = material_uuid ∧ m.user_id = teacherId) then
        .ok ()
      else .error (.notFound "Material not found")
  else .ok ()

theorem tryGenerateCode_none_all_collide (links : List PublicLink)
    (choice : Nat → Fin 62) : ∀ fuel attempt c,
    tryGenerateCode links choice fuel attempt = some c →
      (∃ i, attempt ≤ i ∧ i < attempt + fuel ∧
        c = generate_short_code choice (8 * i)) ∧
      links.any (fun l => l.short_code = c) = false := by
  intro fuel
  induction fuel with
  | zero => intro attempt c h; exact absurd h (by simp [tryGenerateCode])
  | succ n ih =>
    intro attempt c h
    unfold tryGenerateCode at h
    by_cases hc :
        links.any
          (fun l => l.short_code = generate_short_code choice (8 * attempt))
    · rw [if_pos hc] at h
      obtain ⟨⟨i, hi1, hi2, hi3⟩, hfree⟩ := ih (attempt + 1) c h
      exact ⟨⟨i, by omega, by omega, hi3⟩, hfree⟩
    · rw [if_neg hc] at h
      obtain rfl := Option.some.injEq _ _ ▸ h
      refine ⟨⟨attempt, le_refl _, by omega, by injection h⟩, ?_⟩
      injection h with h'
      rw [← h']
      simpa using hc

theorem generate_short_code_alphanum (choice : Nat → Fin 62) (base : Nat) :
    (generate_short_code choice base).length = 8 ∧
      ∀ c ∈ (generate_short_code choice base).data,
        isAsciiAlphanum c = true := by
  constructor
  · unfold generate_short_code
    simp [String.length]
  · intro c hc
    unfold generate_short_code at hc
    simp only [List.mem_map, List.mem_range] at hc
    obtain ⟨i, -, hci⟩ := hc
    have hall : ∀ v : Fin 62,
        isAsciiAlphanum (codeAlphabet.getD v.val 'a') = true := by decide
    rw [← hci]
    exact hall (choice (base + i))

/-- Counterexample for C4: with a choice stream that always draws 'a' and a
store already holding the code "aaaaaaaa", all 10 candidates collide and
creation fails with HTTP 500 Internal Server Error — not the
service-unavailable (503) error the claim asserts. -/
theorem claim_C4_counterexample :
    (create_share_link
        { links := [{ linkMat with short_code := "aaaaaaaa" }],
          quizzes := [], materials := [matA], ocrResults := [],
          studentResults := [] } 0 "L9" (fun _ => (⟨0, by omega⟩ : Fin 62))
        (fun p => p) "t1"
        { resourceId := uuidA, resourceType := "material", viewOnly := none,
          allowCopy := none, password := none, expiresAt := none }).1 =
      .error (.internalServerError "Failed to generate unique share code") ∧
    (HErr.internalServerError
      "Failed to generate unique share code").statusCode = 500 ∧
    (HErr.internalServerError
      "Failed to generate unique share code").statusCode ≠ 503 := by
  decide

/-- Claim C4 (amended): every generated short code has length exactly 8 over
`[A-Za-z0-9]`; link creation checks uniqueness against the persisted codes
for at most 10 generated candidates, succeeds with the first free one, and
if all 10 collide it fails with a fatal, surfaced internal-server error
(HTTP 500) — not a 503 — rather than retrying further or looping. -/
theorem claim_C4_short_code_generation (db : DB) (now : Int)
    (newLinkId : String) (choice : Nat → Fin 62) (hashPw : String → String)
    (teacherId : String) (config : ShareConfig) :
    (∀ base, (generate_short_code choice base).length = 8 ∧
      ∀ c ∈ (generate_short_code choice base).data,
        isAsciiAlphanum c = true) ∧
    (shareOwnershipCheck db teacherId config = .ok () →
      tryGenerateCode db.links choice 10 0 = none →
      create_share_link db now newLinkId choice hashPw teacherId config =
        (.error
          (.internalServerError "Failed to generate unique share code"),
          db) ∧
      (HErr.internalServerError
        "Failed to generate unique share code").statusCode = 500) ∧
    (∀ c, tryGenerateCode db.links choice 10 0 = some c →
      (∃ i, i < 10 ∧ c = generate_short_code choice (8 * i)) ∧
      c.length = 8 ∧ (∀ ch ∈ c.data, isAsciiAlphanum ch = true) ∧
      db.links.any (fun l => l.short_code = c) = false) := by
  refine ⟨generate_short_code_alphanum choice, ?_, ?_⟩
  · intro howner hnone
    constructor
    · unfold create_share_link
      have hsame : (if config.resourceType = "quiz" then
          match parseUuid config.resourceId with
          | none => Except.error (HErr.badRequest "Invalid quiz id")
          | some quiz_uuid =>
            if db.quizzes.any (fun q => q.id = quiz_uuid ∧
                db.materials.any (fun m =>
                  m.id = q.material_id ∧ m.user_id = teacherId)) then
              Except.ok ()
            else Except.error (HErr.notFound "Quiz not found")
        else if config.resourceType = "material" then
          match parseUuid config.resourceId with
          | none => Except.error (HErr.badRequest "Invalid material id")
          | some material_uuid =>
            if db.materials.any (fun m =>
                m.id = material_uuid ∧ m.user_id = teacherId) then
              Except.ok ()
            else Except.error (HErr.notFound "Material not found")
        else Except.ok ()) = Except.ok () := howner
      rw [hsame, hnone]
    · rfl
  · intro c hc
    obtain ⟨⟨i, -, hi2, hi3⟩, hfree⟩ :=
      tryGenerateCode_none_all_collide db.links choice 10 0 c hc
    obtain ⟨hlen, hchars⟩ := generate_short_code_alphanum choice (8 * i)
    exact ⟨⟨i, by omega, hi3⟩, hi3 ▸ hlen, hi3 ▸ hchars, hfree⟩

/-- Witness for the amended C4: with the all-'a' choice stream and the code
"aaaaaaaa" already persisted, creation fails with the 500 error, and on an
empty store the first candidate "aaaaaaaa" is issued. -/
theorem claim_C4_short_code_generation_witness :
    shareOwnershipCheck
        { links := [{ linkMat with short_code := "aaaaaaaa" }],
          quizzes := [], materials := [matA], ocrResults := [],
          studentResults := [] } "t1"
        { resourceId := uuidA, resourceType := "material", viewOnly := none,
          allowCopy := none, password := none, expiresAt := none } =
        .ok () ∧
      tryGenerateCode
        [{ linkMat with short_code := "aaaaaaaa" }]
        (fun _ => (⟨0, by omega⟩ : Fin 62)) 10 0 = none ∧
      create_share_link
        { links := [{ linkMat with short_code := "aaaaaaaa" }],
          quizzes := [], materials := [matA], ocrResults := [],
          studentResults := [] } 0 "L9" (fun _ => (⟨0, by omega⟩ : Fin 62))
        (fun p => p) "t1"
        { resourceId := uuidA, resourceType := "material", viewOnly := none,
          allowCopy := none, password := none, expiresAt := none } =
        (.error
          (.internalServerError "Failed to generate unique share code"),
          { links := [{ linkMat with short_code := "aaaaaaaa" }],
            quizzes := [], materials := [matA], ocrResults := [],
            studentResults := [] }) ∧
      (generate_short_code (fun _ => (⟨0, by omega⟩ : Fin 62)) 0).length =
        8 :=
  ⟨by decide, by decide,
    ((claim_C4_short_code_generation
      { links := [{ linkMat with short_code := "aaaaaaaa" }], quizzes := [],
        materials := [matA], ocrResults := [], studentResults := [] } 0 "L9"
      (fun _ => (⟨0, by omega⟩ : Fin 62)) (fun p => p) "t1"
      { resourceId := uuidA, resourceType := "material", viewOnly := none,
        allowCopy := none, password := none,
        expiresAt := none }).2.1 (by decide) (by decide)).1,
    ((claim_C4_short_code_generation
      { links := [{ linkMat with short_code := "aaaaaaaa" }], quizzes := [],
        materials := [matA], ocrResults := [], studentResults := [] } 0 "L9"
      (fun _ => (⟨0, by omega⟩ : Fin 62)) (fun p => p) "t1"
      { resourceId := uuidA, resourceType := "material", viewOnly := none,
        allowCopy := none, password := none, expiresAt := none }).1 0).1⟩

/-! ## Claim C2 -/

/-- Counterexample for C2: a teacher with a material in the course but zero
submissions gets an empty performance series, not the 7 points the claim
asserts for "zero submissions". -/
theorem claim_C2_counterexample :
    get_analytics_performance
        { links := [], quizzes := [], materials := [matA], ocrResults := [],
          studentResults := [] } "t1" (some "c1") 0 = [] ∧
      (get_analytics_performance
        { links := [], quizzes := [], materials := [matA], ocrResults := [],
          studentResults := [] } "t1" (some "c1") 0).length ≠ 7 := by
  decide

/-- Claim C2 (amended): whenever the course has at least one of the
teacher's materials and at least one merged attempt (quiz result or scored
assignment), the performance series has exactly 7 points — one per calendar
day of the trailing 7-day window, oldest day first — each the banker's
rounded mean of that day's scores, or 0 for a day with none; with no
materials or no attempts the handler instead returns an empty series. -/
theorem claim_C2_seven_day_series (db : DB) (teacherId cid : String)
    (now : Int) (hcid : cid ≠ "")
    (hmats : (courseMaterials db teacherId cid).isEmpty = false)
    (hmerged : (mergedAttempts db teacherId cid).isEmpty = false) :
    get_analytics_performance db teacherId (some cid) now =
        (List.range 7).map (fun i =>
          { day := dateOfTs now - 6 + Int.ofNat i
            value := dayValue (mergedAttempts db teacherId cid)
              (dateOfTs now - 6 + Int.ofNat i) }) ∧
      (get_analytics_performance db teacherId (some cid) now).length = 7 := by
  have hmain : get_analytics_performance db teacherId (some cid) now =
      (List.range 7).map (fun i =>
        { day := dateOfTs now - 6 + Int.ofNat i
          value := dayValue (mergedAttempts db teacherId cid)
            (dateOfTs now - 6 + Int.ofNat i) }) := by
    unfold get_analytics_performance performanceSeries
    dsimp only
    rw [if_neg hcid, hmats, hmerged]
    simp only [Bool.false_eq_true, if_false]
    refine List.map_congr_left (fun i hi => ?_)
    have harith : dateOfTs now - (6 - Int.ofNat i) =
        dateOfTs now - 6 + Int.ofNat i := by ring
    rw [harith]
  exact ⟨hmain, by rw [hmain]; simp⟩

/-- Witness for the amended C2: a store with one scored assignment (80 on
day 0) read at a time on day 3 yields seven points for days -3 … 3 with the
80-average on the day-0 point. -/
theorem claim_C2_seven_day_series_witness :
    ("c1" : String) ≠ "" ∧
      (courseMaterials
        { links := [], quizzes := [], materials := [matA],
          ocrResults := [{ rowAlice with manual_score := some 80 }],
          studentResults := [] } "t1" "c1").isEmpty = false ∧
      (mergedAttempts
        { links := [], quizzes := [], materials := [matA],
          ocrResults := [{ rowAlice with manual_score := some 80 }],
          studentResults := [] } "t1" "c1").isEmpty = false ∧
      get_analytics_performance
        { links := [], quizzes := [], materials := [matA],
          ocrResults := [{ rowAlice with manual_score := some 80 }],
          studentResults := [] } "t1" (some "c1") (3 * 1440 + 10) =
        [{ day := -3, value := 0 }, { day := -2, value := 0 },
         { day := -1, value := 0 }, { day := 0, value := 80 },
         { day := 1, value := 0 }, { day := 2, value := 0 },
         { day := 3, value := 0 }] :=
  ⟨by decide, by decide, by decide,
    ((claim_C2_seven_day_series
      { links := [], quizzes := [], materials := [matA],
        ocrResults := [{ rowAlice with manual_score := some 80 }],
        studentResults := [] } "t1" "c1" (3 * 1440 + 10) (by decide)
      (by decide) (by decide)).1).trans (by decide)⟩

/-! ## Claim C10 -/

/-- The comment a single stored entry contributes at normalised key `k`. -/
def entryNormComment (k : String) (p : String × JVal) : Option String :=
  match p.2 with
  | JVal.jstr v => if pyLower (pyStrip p.1) = k then some v else none
  | _ => none

/-- The comment the normalisation loop leaves at key `k`: the contribution
of the last string entry whose normalised key is `k`. -/
def lastNormComment (k : String) : Dict JVal → Option String
  | [] => none
  | p :: rest =>
    match lastNormComment k rest with
    | some v => some v
    | none => entryNormComment k p

theorem normFold_dget (k : String) (entries : Dict JVal) :
    ∀ acc : Dict String,
      dget (entries.foldl (fun acc p =>
        match p.2 with
        | JVal.jstr v => dset acc (pyLower (pyStrip p.1)) v
        | _ => acc) acc) k =
      (match lastNormComment k entries with
       | some v => some v
       | none => dget acc k) := by
  induction entries with
  | nil => intro acc; rfl
  | cons p rest ih =>
    intro acc
    simp only [List.foldl_cons, lastNormComment]
    cases hp : p.2 with
    | jstr v =>
      rw [ih]
      cases hl : lastNormComment k rest with
      | some w => rfl
      | none =>
        by_cases hk : pyLower (pyStrip p.1) = k
        · rw [hk, dget_dset_self]
          simp [entryNormComment, hp, hk]
        · rw [dget_dset_ne _ _ _ _ (fun hkk => hk hkk.symm)]
          simp [entryNormComment, hp, hk]
    | jdict l =>
      rw [ih]
      cases hl : lastNormComment k rest with
      | some w => rfl
      | none => simp [entryNormComment, hp]
    | jnum n =>
      rw [ih]
      cases hl : lastNormComment k rest with
      | some w => rfl
      | none => simp [entryNormComment, hp]

/-- The read path reduces to `lastNormComment` over the stored entries. -/
theorem extract_dget (settings : Option JVal) (cid k : String) :
    dget (extractDiaryComments settings cid) k =
      (match lastNormComment k (storedCourseComments settings cid) with
       | some v => some v
       | none => none) := by
  unfold extractDiaryComments normalizeCommentEntries
  rw [normFold_dget]
  cases lastNormComment k (storedCourseComments settings cid) <;> rfl

theorem lastNormComment_append_single (k : String) (l : Dict JVal)
    (e : String × JVal) :
    lastNormComment k (l ++ [e]) =
      (match entryNormComment k e with
       | some v => some v
       | none => lastNormComment k l) := by
  induction l with
  | nil =>
    simp only [List.nil_append, lastNormComment]
    cases entryNormComment k e <;> rfl
  | cons p rest ih =>
    rw [List.cons_append]
    simp only [lastNormComment, List.append_eq]
    rw [ih]
    cases entryNormComment k e <;> cases lastNormComment k rest <;> rfl

theorem lastNormComment_congr_entries (k : String) (l : Dict JVal)
    (f : String × JVal → String × JVal)
    (hf : ∀ p ∈ l, entryNormComment k (f p) = entryNormComment k p) :
    lastNormComment k (l.map f) = lastNormComment k l := by
  induction l with
  | nil => rfl
  | cons p rest ih =>
    simp only [List.map_cons, lastNormComment]
    rw [ih (fun q hq => hf q (List.mem_cons_of_mem p hq)),
      hf p (List.mem_cons_self p rest)]

/-- Updating the entry at a normalised key `sk` leaves every other
normalised key unchanged. -/
theorem lastNormComment_dset_ne (cc : Dict JVal) (sk k : String) (v : JVal)
    (hk : k ≠ sk) (hskNorm : pyLower (pyStrip sk) = sk) :
    lastNormComment k (dset cc sk v) = lastNormComment k cc := by
  have hnk : ¬ pyLower (pyStrip sk) = k := fun h => hk (h.symm.trans hskNorm)
  unfold dset
  by_cases hmem : cc.any (fun p => p.1 = sk)
  · rw [if_pos hmem]
    refine lastNormComment_congr_entries k cc _ (fun p hp => ?_)
    obtain ⟨pk, pv⟩ := p
    by_cases hpk : pk = sk
    · subst hpk
      simp only [if_pos rfl]
      unfold entryNormComment
      cases v <;> cases pv <;> simp [hnk]
    · simp only [hpk, if_neg, not_false_iff]
  · rw [if_neg hmem, lastNormComment_append_single]
    unfold entryNormComment
    cases v <;> simp [hnk]

/-- Removing the entry at a normalised key `sk` leaves every other
normalised key unchanged. -/
theorem lastNormComment_dpop_ne (cc : Dict JVal) (sk k : String)
    (hk : k ≠ sk) (hskNorm : pyLower (pyStrip sk) = sk) :
    lastNormComment k (dpop cc sk) = lastNormComment k cc := by
  have hnk : ¬ pyLower (pyStrip sk) = k := fun h => hk (h.symm.trans hskNorm)
  unfold dpop
  induction cc with
  | nil => rfl
  | cons p rest ih =>
    obtain ⟨pk, pv⟩ := p
    simp only [List.filter_cons]
    by_cases hpk : pk = sk
    · subst hpk
      have hent : entryNormComment k (pk, pv) = none := by
        unfold entryNormComment
        cases pv <;> simp [hnk]
      simp only [decide_True, Bool.not_true, Bool.false_eq_true, if_false]
      rw [ih]
      conv_rhs => rw [lastNormComment]
      rw [hent]
      cases lastNormComment k rest <;> rfl
    · simp only [hpk, decide_False, Bool.not_false, if_true,
        lastNormComment, ih]

/-- With normalised keys, a list with no entry keyed `sk` stores nothing at
`sk`. -/
theorem lastNormComment_none_of_no_key (sk : String) (l : Dict JVal)
    (hkeys : ∀ p ∈ l, pyLower (pyStrip p.1) = p.1)
    (hno : ∀ p ∈ l, ¬ p.1 = sk) :
    lastNormComment sk l = none := by
  induction l with
  | nil => rfl
  | cons p rest ih =>
    simp only [lastNormComment]
    rw [ih (fun q hq => hkeys q (List.mem_cons_of_mem p hq))
      (fun q hq => hno q (List.mem_cons_of_mem p hq))]
    unfold entryNormComment
    have h1 : pyLower (pyStrip p.1) = p.1 :=
      hkeys p (List.mem_cons_self p rest)
    have h2 : ¬ p.1 = sk := hno p (List.mem_cons_self p rest)
    cases hp : p.2 <;> simp [h1, h2]

/-- After removal at `sk` nothing is left at `sk`, provided all stored keys
are already normalised. -/
theorem lastNormComment_dpop_self (cc : Dict JVal) (sk : String)
    (hkeys : ∀ p ∈ cc, pyLower (pyStrip p.1) = p.1) :
    lastNormComment sk (dpop cc sk) = none := by
  unfold dpop
  refine lastNormComment_none_of_no_key sk _ ?_ ?_
  · intro p hp
    exact hkeys p (List.mem_of_mem_filter hp)
  · intro p hp
    simpa using List.of_mem_filter hp

theorem lastNormComment_update_self (sk v : String) (l : Dict JVal)
    (hskNorm : pyLower (pyStrip sk) = sk)
    (hkeys : ∀ p ∈ l, pyLower (pyStrip p.1) = p.1)
    (hmem : l.any (fun p => p.1 = sk)) :
    lastNormComment sk
      (l.map (fun p => if p.1 = sk then (sk, JVal.jstr v) else p)) =
      some v := by
  induction l with
  | nil => simp at hmem
  | cons p rest ih =>
    simp only [List.map_cons, lastNormComment]
    by_cases hm2 : rest.any (fun q => q.1 = sk)
    · rw [ih (fun q hq => hkeys q (List.mem_cons_of_mem p hq)) hm2]
    · have hnos : ∀ q ∈ rest, ¬ q.1 = sk := by
        intro q hq hqk
        exact hm2 (List.any_eq_true.mpr ⟨q, hq, by simpa using hqk⟩)
      have hmap : lastNormComment sk
          (rest.map (fun q => if q.1 = sk then (sk, JVal.jstr v) else q)) =
          none := by
        refine lastNormComment_none_of_no_key sk _ ?_ ?_
        · intro q hq
          obtain ⟨q0, hq0, rfl⟩ := List.mem_map.mp hq
          rw [if_neg (hnos q0 hq0)]
          exact hkeys q0 (List.mem_cons_of_mem p hq0)
        · intro q hq
          obtain ⟨q0, hq0, rfl⟩ := List.mem_map.mp hq
          rw [if_neg (hnos q0 hq0)]
          exact hnos q0 hq0
      rw [hmap]
      have hpk : p.1 = sk := by
        simp only [List.any_cons, Bool.or_eq_true] at hmem
        rcases hmem with h | h
        · simpa using h
        · exact absurd h hm2
      rw [if_pos hpk]
      unfold entryNormComment
      simp [hskNorm]

/-- After an update at `sk` the stored comment at `sk` is the new value,
provided all stored keys are already normalised. -/
theorem lastNormComment_dset_self (cc : Dict JVal) (sk v : String)
    (hskNorm : pyLower (pyStrip sk) = sk)
    (hkeys : ∀ p ∈ cc, pyLower (pyStrip p.1) = p.1) :
    lastNormComment sk (dset cc sk (JVal.jstr v)) = some v := by
  unfold dset
  by_cases hmem : cc.any (fun p => p.1 = sk)
  · rw [if_pos hmem]
    exact lastNormComment_update_self sk v cc hskNorm hkeys hmem
  · rw [if_neg hmem, lastNormComment_append_single]
    unfold entryNormComment
    simp [hskNorm]

/-- The per-course comment dictionary after the handler's update step. -/
def updatedCourseComments (userSettings : Option JVal)
    (course_id sk comment : String) : Dict JVal :=
  if comment = "" then dpop (storedCourseComments userSettings course_id) sk
  else dset (storedCourseComments userSettings course_id) sk
    (JVal.jstr comment)

/-- The settings blob after the handler's update step. -/
def updatedSettings (userSettings : Option JVal)
    (course_id sk comment : String) : Option JVal :=
  some (JVal.jdict (dset (settingsEntries userSettings)
    "studentDiaryComments"
    (JVal.jdict (dset (commentsRoot userSettings) course_id
      (JVal.jdict (updatedCourseComments userSettings course_id sk
        comment))))))

/-- Claim C10: `PATCH /analytics/student-journal/comment` modifies only the
comment entry keyed by the given course and by the normalised student name
inside the teacher's settings blob — the comments of every other course and
of every other student key, and every other settings key, are unchanged —
and an empty comment removes the entry so a subsequent read returns the
empty string, while a non-empty comment is stored and read back.  The two
hygiene hypotheses (the normalised key is a fixed point of normalisation,
and the stored keys are already normalised) hold for every blob this
endpoint itself has written. -/
theorem claim_C10_comment_frame (userSettings : Option JVal)
    (payload : CommentPayload) (course_id student_name comment : String)
    (hcid : pyStrip (pyOrStr payload.courseId "") = course_id)
    (hcne : course_id ≠ "")
    (hsn : pyStrip (pyOrStr payload.studentName "") = student_name)
    (hsne : student_name ≠ "")
    (hcm : pyStrip (pyOrStr payload.comment "") = comment)
    (hskNorm : pyLower (pyStrip (normalizeStudentKey student_name)) =
      normalizeStudentKey student_name)
    (hkeys : ∀ p ∈ storedCourseComments userSettings course_id,
      pyLower (pyStrip p.1) = p.1) :
    ∃ resp : CommentResponse,
      update_student_journal_comment userSettings payload =
        (.ok resp,
          updatedSettings userSettings course_id
            (normalizeStudentKey student_name) comment) ∧
      (∀ c, c ≠ course_id →
        extractDiaryComments (updatedSettings userSettings course_id
            (normalizeStudentKey student_name) comment) c =
          extractDiaryComments userSettings c) ∧
      (∀ k, k ≠ "studentDiaryComments" →
        dget (settingsEntries (updatedSettings userSettings course_id
            (normalizeStudentKey student_name) comment)) k =
          dget (settingsEntries userSettings) k) ∧
      (∀ k, k ≠ normalizeStudentKey student_name →
        readDiaryComment (updatedSettings userSettings course_id
            (normalizeStudentKey student_name) comment) course_id k =
          readDiaryComment userSettings course_id k) ∧
      (comment = "" →
        readDiaryComment (updatedSettings userSettings course_id
            (normalizeStudentKey student_name) comment) course_id
          (normalizeStudentKey student_name) = "") ∧
      (comment ≠ "" →
        readDiaryComment (updatedSettings userSettings course_id
            (normalizeStudentKey student_name) comment) course_id
          (normalizeStudentKey student_name) = comment) := by
  have hupd : update_student_journal_comment userSettings payload =
      (.ok { courseId := course_id, studentName := student_name,
             comment :=
               match dget (updatedCourseComments userSettings course_id
                   (normalizeStudentKey student_name) comment)
                   (normalizeStudentKey student_name) with
               | some (JVal.jstr v) => v
               | _ => "" },
        updatedSettings userSettings course_id
          (normalizeStudentKey student_name) comment) := by
    unfold update_student_journal_comment
    rw [hcid, hsn, hcm, if_neg hcne, if_neg hsne]
    rfl
  have h1 : settingsEntries (updatedSettings userSettings course_id
      (normalizeStudentKey student_name) comment) =
      dset (settingsEntries userSettings) "studentDiaryComments"
        (JVal.jdict (dset (commentsRoot userSettings) course_id
          (JVal.jdict (updatedCourseComments userSettings course_id
            (normalizeStudentKey student_name) comment)))) := rfl
  have h2 : commentsRoot (updatedSettings userSettings course_id
      (normalizeStudentKey student_name) comment) =
      dset (commentsRoot userSettings) course_id
        (JVal.jdict (updatedCourseComments userSettings course_id
          (normalizeStudentKey student_name) comment)) := by
    unfold commentsRoot
    rw [h1, dget_dset_self]
    rfl
  have h3 : storedCourseComments (updatedSettings userSettings course_id
      (normalizeStudentKey student_name) comment) course_id =
      updatedCourseComments userSettings course_id
        (normalizeStudentKey student_name) comment := by
    unfold storedCourseComments
    rw [h2, dget_dset_self]
  refine ⟨_, hupd, ?_, ?_, ?_, ?_, ?_⟩
  · intro c hc
    have hsc : storedCourseComments (updatedSettings userSettings course_id
        (normalizeStudentKey student_name) comment) c =
        storedCourseComments userSettings c := by
      unfold storedCourseComments
      rw [h2, dget_dset_ne _ _ _ _ hc]
    unfold extractDiaryComments
    rw [hsc]
  · intro k hk
    rw [h1, dget_dset_ne _ _ _ _ hk]
  · intro k hk
    unfold readDiaryComment
    rw [extract_dget, extract_dget, h3]
    unfold updatedCourseComments
    by_cases hcm0 : comment = ""
    · rw [if_pos hcm0,
        lastNormComment_dpop_ne _ _ _ hk hskNorm]
    · rw [if_neg hcm0,
        lastNormComment_dset_ne _ _ _ _ hk hskNorm]
  · intro hcm0
    unfold readDiaryComment
    rw [extract_dget, h3]
    unfold updatedCourseComments
    rw [if_pos hcm0, lastNormComment_dpop_self _ _ hkeys]
    rfl
  · intro hcm0
    unfold readDiaryComment
    rw [extract_dget, h3]
    unfold updatedCourseComments
    rw [if_neg hcm0, lastNormComment_dset_self _ _ _ hskNorm hkeys]
    rfl

/-- Witness for C10: a blob with comments for "alice"/"bob" in course `c1`
and for "carol" in course `c2`; updating Alice's comment in `c1` leaves
Bob's and Carol's comments and the unrelated settings key intact, and an
empty update removes Alice's entry. -/
theorem claim_C10_comment_frame_witness :
    (∃ resp : CommentResponse,
      update_student_journal_comment
          (some (JVal.jdict [("theme", JVal.jstr "dark"),
            ("studentDiaryComments", JVal.jdict
              [("c1", JVal.jdict [("alice", JVal.jstr "old"),
                ("bob", JVal.jstr "keep")]),
               ("c2", JVal.jdict [("carol", JVal.jstr "other")])])]))
          { courseId := some "c1", studentName := some " Alice ",
            comment := some " new note " } =
        (.ok resp,
          updatedSettings
            (some (JVal.jdict [("theme", JVal.jstr "dark"),
              ("studentDiaryComments", JVal.jdict
                [("c1", JVal.jdict [("alice", JVal.jstr "old"),
                  ("bob", JVal.jstr "keep")]),
                 ("c2", JVal.jdict [("carol", JVal.jstr "other")])])]))
            "c1" (normalizeStudentKey "Alice") "new note")) ∧
      (∀ c, c ≠ "c1" →
        extractDiaryComments (updatedSettings
            (some (JVal.jdict [("theme", JVal.jstr "dark"),
              ("studentDiaryComments", JVal.jdict
                [("c1", JVal.jdict [("alice", JVal.jstr "old"),
                  ("bob", JVal.jstr "keep")]),
                 ("c2", JVal.jdict [("carol", JVal.jstr "other")])])]))
            "c1" (normalizeStudentKey "Alice") "new note") c =
          extractDiaryComments
            (some (JVal.jdict [("theme", JVal.jstr "dark"),
              ("studentDiaryComments", JVal.jdict
                [("c1", JVal.jdict [("alice", JVal.jstr "old"),
                  ("bob", JVal.jstr "keep")]),
                 ("c2", JVal.jdict [("carol", JVal.jstr "other")])])])) c) ∧
      (∀ k, k ≠ "studentDiaryComments" →
        dget (settingsEntries (updatedSettings
            (some (JVal.jdict [("theme", JVal.jstr "dark"),
              ("studentDiaryComments", JVal.jdict
                [("c1", JVal.jdict [("alice", JVal.jstr "old"),
                  ("bob", JVal.jstr "keep")]),
                 ("c2", JVal.jdict [("carol", JVal.jstr "other")])])]))
            "c1" (normalizeStudentKey "Alice") "new note")) k =
          dget (settingsEntries
            (some (JVal.jdict [("theme", JVal.jstr "dark"),
              ("studentDiaryComments", JVal.jdict
                [("c1", JVal.jdict [("alice", JVal.jstr "old"),
                  ("bob", JVal.jstr "keep")]),
                 ("c2", JVal.jdict [("carol", JVal.jstr "other")])])]))) k) ∧
      (∀ k, k ≠ normalizeStudentKey "Alice" →
        readDiaryComment (updatedSettings
            (some (JVal.jdict [("theme", JVal.jstr "dark"),
              ("studentDiaryComments", JVal.jdict
                [("c1", JVal.jdict [("alice", JVal.jstr "old"),
                  ("bob", JVal.jstr "keep")]),
                 ("c2", JVal.jdict [("carol", JVal.jstr "other")])])]))
            "c1" (normalizeStudentKey "Alice") "new note") "c1" k =
          readDiaryComment
            (some (JVal.jdict [("theme", JVal.jstr "dark"),
              ("studentDiaryComments", JVal.jdict
                [("c1", JVal.jdict [("alice", JVal.jstr "old"),
                  ("bob", JVal.jstr "keep")]),
                 ("c2", JVal.jdict [("carol", JVal.jstr "other")])])]))
            "c1" k) ∧
      (("new note" : String) ≠ "" →
        readDiaryComment (updatedSettings
            (some (JVal.jdict [("theme", JVal.jstr "dark"),
              ("studentDiaryComments", JVal.jdict
                [("c1", JVal.jdict [("alice", JVal.jstr "old"),
                  ("bob", JVal.jstr "keep")]),
                 ("c2", JVal.jdict [("carol", JVal.jstr "other")])])]))
            "c1" (normalizeStudentKey "Alice") "new note") "c1"
          (normalizeStudentKey "Alice") = "new note") :=
  by
  obtain ⟨resp, hupd, hother, hkeysu, hsk, -, hset⟩ :=
    claim_C10_comment_frame
      (some (JVal.jdict [("theme", JVal.jstr "dark"),
        ("studentDiaryComments", JVal.jdict
          [("c1", JVal.jdict [("alice", JVal.jstr "old"),
            ("bob", JVal.jstr "keep")]),
           ("c2", JVal.jdict [("carol", JVal.jstr "other")])])]))
      { courseId := some "c1", studentName := some " Alice ",
        comment := some " new note " } "c1" "Alice" "new note" (by decide)
      (by decide) (by decide) (by decide) (by decide) (by decide)
      (by decide)
  exact ⟨⟨resp, hupd⟩, hother, hkeysu, hsk, hset⟩

end EduStream
